import Mathlib

/-!
# Hail Spectrum lookup broker

A shallow embedding of `cloudflare-worker/src/index.js` (the edge worker that answers
`/census-lookup` and `/property-lookup`) together with the JavaScript built-ins the worker
relies on: Numbers (IEEE-754 binary64, modelled exactly with natural-number arithmetic),
`parseInt`, `Math.round`, `ToString`, truthiness, property access on parsed JSON,
`String.prototype.split` and `JSON.stringify`. Of the map page `src/pages/HailMap.jsx` the
embedding covers `getZipAndPopulation`, the colour choice of `createHailIcon` and
`getSizeColor`, the size expression of `parseSPCCSV` and the entries of the legend.

Conventions.
* A parsed JSON document, and any JavaScript value built from one, is a `Val`.
* `fetch(url)` followed by `.json()` is an oracle `Upstream`: a URL is mapped to the parsed
  body, or to the message of the error thrown by either step.
* An `async` block is an `Eff`: it threads the list of URLs fetched so far and ends in a
  value or in a thrown error.
* A response body written with `JSON.stringify` is kept as the document it denotes (a `Val`).
* Strings are sequences of characters; indexing agrees with JavaScript on strings without
  astral characters.
* The text of a TypeError raised by the runtime is engine-defined; the model fixes one
  wording, also for a failed destructuring, and no theorem depends on it.
* A conversion to a string (in a template literal, in `parseInt`) can throw: a parsed object
  with an own member named `toString` has no primitive value. The URLs and `parseInt` are
  therefore partial, and a URL that cannot be built is never fetched.
-/

namespace HailSpectrum

/-! ## Numbers -/

/-- A JavaScript Number: `NaN`, an infinity, or the finite value `(-1)^neg * m / 2^k`
(so `fin true 0 0` is the negative zero). -/
inductive JsNum where
  | nan
  | inf (neg : Bool)
  | fin (neg : Bool) (m k : Nat)
  deriving DecidableEq, Repr

/-- Worker for `bitLen`, by recursion on fuel. -/
def bitLenAux : Nat → Nat → Nat
  | 0, _ => 0
  | fuel + 1, n => if n = 0 then 0 else bitLenAux fuel (n / 2) + 1

/-- Number of binary digits of `n` (`0` for `0`). -/
def bitLen (n : Nat) : Nat := bitLenAux n n

/-- Cancel common factors of two in `m / 2^k`. -/
def normFin : Nat → Nat → Nat × Nat
  | m, 0 => (m, 0)
  | m, k + 1 => if m % 2 = 0 then normFin (m / 2) k else (m, k + 1)

/-- The binary exponent of the positive rational `a / b`: the integer `e` with
`2^e ≤ a / b < 2^(e+1)`. -/
def binExponent (a b : Nat) : Int :=
  if b * 2 ^ bitLen a ≤ a * 2 ^ bitLen b then (bitLen a : Int) - bitLen b
  else (bitLen a : Int) - bitLen b - 1

/-- Integer nearest to `n / d`, ties to the even one. -/
def rneDiv (n d : Nat) : Nat :=
  if d < 2 * (n % d) ∨ (2 * (n % d) = d ∧ (n / d) % 2 = 1) then n / d + 1 else n / d

/-- The Number value of the rational `(-1)^neg * a / b` (`b > 0`): round to the nearest
binary64 value, ties to even; 53 significant bits, least quantum `2^-1074`, overflow to
infinity from `2^1024`. -/
def roundToDouble (neg : Bool) (a b : Nat) : JsNum :=
  if a = 0 then .fin neg 0 0
  else
    let q : Int := max (binExponent a b - 52) (-1074)
    if 0 ≤ q then
      let r := rneDiv a (b * 2 ^ q.toNat) * 2 ^ q.toNat
      if 1024 < bitLen r then .inf neg else .fin neg r 0
    else
      let r := normFin (rneDiv (a * 2 ^ (-q).toNat) b) (-q).toNat
      .fin neg r.1 r.2

/-- The Number value of a natural number. -/
def JsNum.ofNat (n : Nat) : JsNum := roundToDouble false n 1

/-- JavaScript `*` on Numbers. -/
def JsNum.mul : JsNum → JsNum → JsNum
  | .nan, _ => .nan
  | _, .nan => .nan
  | .inf s, .inf t => .inf (xor s t)
  | .inf s, .fin t m _ => if m = 0 then .nan else .inf (xor s t)
  | .fin s m _, .inf t => if m = 0 then .nan else .inf (xor s t)
  | .fin s m k, .fin t n j => roundToDouble (xor s t) (m * n) (2 ^ (k + j))

/-- `Math.round`: the nearest integer, ties towards positive infinity (the sign of a zero
result follows the argument). -/
def Math.round : JsNum → JsNum
  | .nan => .nan
  | .inf s => .inf s
  | .fin s m 0 => .fin s m 0
  | .fin false m (k + 1) => .fin false ((m + 2 ^ k) / 2 ^ (k + 1)) 0
  | .fin true m (k + 1) => .fin true ((m + 2 ^ k - 1) / 2 ^ (k + 1)) 0

/-- The literal `0.3`: the binary64 value `5404319552844595 / 2^54`. -/
def lit0_3 : JsNum := .fin false 5404319552844595 54

/-- The literal `7383`. -/
def lit7383 : JsNum := .fin false 7383 0

/-- Numbers that are falsy: both zeros and `NaN`. -/
def JsNum.falsy : JsNum → Bool
  | .nan => true
  | .inf _ => false
  | .fin _ m _ => m == 0

/-! ### Number to string -/

/-- Least `j`, counted from `j`, with `b ≤ a * 10^j`. -/
def leastScale : Nat → Nat → Nat → Nat → Nat
  | 0, _, _, j => j
  | fuel + 1, a, b, j => if b ≤ a * 10 ^ j then j else leastScale fuel a b (j + 1)

/-- The decimal exponent of the positive rational `a / b`: the integer `p` with
`10^p ≤ a / b < 10^(p+1)`. -/
def decExponent (a b : Nat) : Int :=
  if b ≤ a then ((Nat.toDigits 10 (a / b)).length : Int) - 1
  else - (leastScale b a b 1 : Int)

/-- Candidate with digit count `kk` for the shortest decimal that reads back as `a / b`:
the significand and its power of ten, when one of the two neighbours of `a / b` at that
precision converts to the same Number (the closer one, the even one on a tie). -/
def shortestAt (a b : Nat) (p : Int) (kk : Nat) : Option (Nat × Int) :=
  let e10 : Int := p - kk + 1
  let n := if 0 ≤ e10 then a else a * 10 ^ (-e10).toNat
  let d := if 0 ≤ e10 then b * 10 ^ e10.toNat else b
  let lo := n / d
  let back := fun (c : Nat) =>
    if 0 ≤ e10 then roundToDouble false (c * 10 ^ e10.toNat) 1
    else roundToDouble false c (10 ^ (-e10).toNat)
  let x := roundToDouble false a b
  let okLo := decide (back lo = x) && decide (0 < lo)
  let okHi := decide (back (lo + 1) = x)
  let loCloser := decide (2 * (n % d) < d) || (decide (2 * (n % d) = d) && decide (lo % 2 = 0))
  if okLo && (loCloser || !okHi) then some (lo, e10)
  else if okHi then some (lo + 1, e10)
  else none

/-- Search the digit counts `kk, kk+1, ...` for the first with a candidate. -/
def shortestFrom (a b : Nat) (p : Int) : Nat → Nat → Nat × Int
  | 0, kk => ((if 0 ≤ p - kk + 1 then a / (b * 10 ^ (p - kk + 1).toNat)
      else a * 10 ^ (-(p - kk + 1)).toNat / b), p - kk + 1)
  | fuel + 1, kk =>
    match shortestAt a b p kk with
    | some r => r
    | none => shortestFrom a b p fuel (kk + 1)

/-- Drop the trailing zeros of a digit list. -/
def stripZeros (ds : List Char) : List Char :=
  (ds.reverse.dropWhile (fun c => c == '0')).reverse

/-- Lay out the digits `s` of a positive Number whose value is `0.s * 10^n`, as
`Number::toString` does: plain digits up to `10^21`, a leading `0.` down to `10^-6`,
exponent notation otherwise. -/
def formatDecimal (s : List Char) (n : Int) : List Char :=
  let k : Int := s.length
  if k ≤ n ∧ n ≤ 21 then s ++ List.replicate (n - k).toNat '0'
  else if 0 < n ∧ n ≤ 21 then s.take n.toNat ++ '.' :: s.drop n.toNat
  else if -6 < n ∧ n ≤ 0 then '0' :: '.' :: (List.replicate (-n).toNat '0' ++ s)
  else
    (if s.length = 1 then s else s.take 1 ++ '.' :: s.drop 1)
      ++ 'e' :: (if n - 1 < 0 then '-' else '+') :: Nat.toDigits 10 (n - 1).natAbs

/-- The characters of `Number::toString` for the positive value `m / 2^k`. An integer below
`2^53` is its own shortest decimal. -/
def posToString (m k : Nat) : List Char :=
  if k = 0 ∧ m < 2 ^ 53 then Nat.toDigits 10 m
  else
    let r := shortestFrom m (2 ^ k) (decExponent m (2 ^ k)) 17 1
    let ds := Nat.toDigits 10 r.1
    formatDecimal (stripZeros ds) (ds.length + r.2)

/-- The characters of `Number::toString` (radix 10). -/
def numberToString : JsNum → List Char
  | .nan => "NaN".data
  | .inf false => "Infinity".data
  | .inf true => "-Infinity".data
  | .fin neg m k =>
    if m = 0 then ['0']
    else if neg then '-' :: posToString m k
    else posToString m k

/-! ### String to number: `parseInt` -/

/-- The characters `parseInt` skips at the start: WhiteSpace and LineTerminator. -/
def isStrWhiteSpace (c : Char) : Bool :=
  c.toNat ∈ [0x9, 0xA, 0xB, 0xC, 0xD, 0x20, 0xA0, 0x1680, 0x2028, 0x2029, 0x202F, 0x205F,
    0x3000, 0xFEFF] || (0x2000 ≤ c.toNat && c.toNat ≤ 0x200A)

/-- Value of a character as a digit in a radix up to 36. -/
def digitValue (c : Char) : Option Nat :=
  if 48 ≤ c.toNat ∧ c.toNat ≤ 57 then some (c.toNat - 48)
  else if 97 ≤ c.toNat ∧ c.toNat ≤ 122 then some (c.toNat - 87)
  else if 65 ≤ c.toNat ∧ c.toNat ≤ 90 then some (c.toNat - 55)
  else none

/-- Value of the longest run of radix digits at the start of the input, on top of the
digits read so far (`none`: no digit read). -/
def digitsValue (radix : Nat) : List Char → Option Nat → Option Nat
  | [], acc => acc
  | c :: cs, acc =>
    match digitValue c with
    | some d => if d < radix then digitsValue radix cs (some (acc.getD 0 * radix + d)) else acc
    | none => acc

/-- The function `parseInt(string)` with no radix argument, on the characters of the string:
skip white space, read a sign, switch to radix 16 after `0x`, read digits, convert. -/
def parseIntChars (s : List Char) : JsNum :=
  let s1 := s.dropWhile isStrWhiteSpace
  let signed : Bool × List Char :=
    match s1 with
    | '-' :: r => (true, r)
    | '+' :: r => (false, r)
    | r => (false, r)
  let based : Nat × List Char :=
    match signed.2 with
    | '0' :: 'x' :: r => (16, r)
    | '0' :: 'X' :: r => (16, r)
    | r => (10, r)
  match digitsValue based.1 based.2 none with
  | none => .nan
  | some n => roundToDouble signed.1 n 1

/-! ## Values -/

/-- A JavaScript value as this program meets them: `undefined`, and what `JSON.parse`
builds. The members of an object are listed in insertion order; a parsed object has one
member per name. -/
inductive Val where
  | undefined
  | null
  | bool (b : Bool)
  | num (x : JsNum)
  | str (s : String)
  | arr (xs : List Val)
  | obj (kvs : List (String × Val))
  deriving Repr

/-- Value of the first member named `key`, `undefined` when there is none. -/
def lookup (key : String) : List (String × Val) → Val
  | [] => .undefined
  | (k, v) :: rest => if k = key then v else lookup key rest

/-- Message of the TypeError thrown on reading a property of `null` or `undefined`. -/
def cannotRead (of key : String) : String :=
  "Cannot read properties of " ++ of ++ " (reading \x27" ++ key ++ "\x27)"

/-- Property read `v.key` for a name that is neither an index nor a member of a built-in
prototype (every name this program reads, `split` apart): an own member of an object,
`undefined` on any other value, a TypeError on `null` and `undefined`. -/
def Val.get (v : Val) (key : String) : Except String Val :=
  match v with
  | .undefined => .error (cannotRead "undefined" key)
  | .null => .error (cannotRead "null" key)
  | .obj kvs => .ok (lookup key kvs)
  | _ => .ok .undefined

/-- Indexed read `v[i]`: an element of an array, a one-character string of a string, the
member named by the decimal digits of `i` of an object. -/
def Val.index (v : Val) (i : Nat) : Except String Val :=
  match v with
  | .undefined => .error (cannotRead "undefined" (toString i))
  | .null => .error (cannotRead "null" (toString i))
  | .arr xs => .ok (xs.getD i .undefined)
  | .str s => .ok (match s.data.get? i with
      | some c => .str (String.singleton c)
      | none => .undefined)
  | .obj kvs => .ok (lookup (toString i) kvs)
  | _ => .ok .undefined

/-- Truthiness (`ToBoolean`). -/
def Val.truthy : Val → Bool
  | .undefined => false
  | .null => false
  | .bool b => b
  | .num x => !x.falsy
  | .str s => s != ""
  | .arr _ => true
  | .obj _ => true

/-- The expression `v || d`. -/
def Val.orElse (v d : Val) : Val := if v.truthy then v else d

/-- Message of the TypeError thrown when an object has no primitive value. -/
def cannotConvert : String := "Cannot convert object to primitive value"

mutual
/-- The abstract operation `ToString`, as used by template literals and `parseInt`: the
string, or the message of the TypeError thrown. An array is joined with commas. A parsed
object is written `[object Object]` by the inherited `toString`, unless it has an own member
named `toString`: a parsed member is never callable and the inherited `valueOf` returns the
object itself, so the conversion throws. -/
def Val.toStr : Val → Except String String
  | .undefined => .ok "undefined"
  | .null => .ok "null"
  | .bool true => .ok "true"
  | .bool false => .ok "false"
  | .num x => .ok (String.mk (numberToString x))
  | .str s => .ok s
  | .arr xs => joinElems xs
  | .obj kvs =>
    if kvs.any (fun kv => kv.1 == "toString") then .error cannotConvert
    else .ok "[object Object]"
/-- The result of `Array.prototype.join` with a comma: `null` and `undefined` elements are
written as the empty string, the others are converted in order, and the first conversion
that throws ends the join. -/
def joinElems : List Val → Except String String
  | [] => .ok ""
  | x :: rest =>
    match (match x with
      | .undefined => Except.ok ""
      | .null => Except.ok ""
      | _ => x.toStr) with
    | .error e => .error e
    | .ok s =>
      match rest with
      | [] => .ok s
      | _ =>
        match joinElems rest with
        | .error e => .error e
        | .ok t => .ok (s ++ "," ++ t)
end

/-- The call `parseInt(v)`: the argument is converted to a string first, which may throw. -/
def parseInt (v : Val) : Except String JsNum := do
  let s ← v.toStr
  pure (parseIntChars s.data)

mutual
/-- The document that `JSON.stringify(v)` writes: a Number that is not finite becomes
`null`, the negative zero becomes `0`, an `undefined` element becomes `null` and a member
whose value is `undefined` is left out. -/
def Val.toJSON : Val → Val
  | .undefined => .undefined
  | .null => .null
  | .bool b => .bool b
  | .num .nan => .null
  | .num (.inf _) => .null
  | .num (.fin s m k) => if m = 0 then .num (.fin false 0 0) else .num (.fin s m k)
  | .str s => .str s
  | .arr xs => .arr (elemsJSON xs)
  | .obj kvs => .obj (membersJSON kvs)
/-- Serialisation of the elements of an array. -/
def elemsJSON : List Val → List Val
  | [] => []
  | x :: rest =>
    (match x with
      | .undefined => .null
      | _ => x.toJSON) :: elemsJSON rest
/-- Serialisation of the members of an object. -/
def membersJSON : List (String × Val) → List (String × Val)
  | [] => []
  | (k, v) :: rest =>
    match v with
    | .undefined => membersJSON rest
    | _ => (k, v.toJSON) :: membersJSON rest
end

/-- The pieces of a string between occurrences of a one-character separator
(`String.prototype.split`): never an empty list. -/
def splitChars (sep : Char) : List Char → List (List Char)
  | [] => [[]]
  | c :: cs =>
    if c = sep then [] :: splitChars sep cs
    else
      match splitChars sep cs with
      | [] => [[c]]
      | seg :: segs => (c :: seg) :: segs

/-! ## Requests, responses and effects -/

/-- What the worker reads of the incoming request: the method, the path of its URL and the
outcome of `request.json()` (the parsed body, or the message of the error it throws). -/
structure Request where
  method : String
  pathname : String
  json : Except String Val

/-- The bindings read from `env`. -/
structure Env where
  CENSUS_API_KEY : Val
  GEOCODIO_API_KEY : Val

/-- Body of a response: `null`, a plain string, or the text of `JSON.stringify`, kept as the
document it denotes. -/
inductive Body where
  | empty
  | text (s : String)
  | json (doc : Val)
  deriving Repr

/-- A response: status (200 when none is given), the headers passed in, and the body. -/
structure Response where
  status : Nat
  headers : List (String × String)
  body : Body
  deriving Repr

/-- The network as the worker sees it: what fetching a URL and parsing the body as JSON
yields, the parsed document or the message of the error thrown by `fetch` or by `.json()`. -/
abbrev Upstream := String → Except String Val

/-- An asynchronous computation: from the URLs fetched so far to its outcome (a value or a
thrown error message) and the URLs fetched by its end. -/
def Eff (α : Type) : Type := List String → Except String α × List String

/-- A computation that returns at once. -/
def Eff.pure {α : Type} (a : α) : Eff α := fun log => (.ok a, log)

/-- Sequencing: a thrown error skips the rest. -/
def Eff.bind {α β : Type} (m : Eff α) (f : α → Eff β) : Eff β := fun log =>
  match m log with
  | (.ok a, log1) => f a log1
  | (.error e, log1) => (.error e, log1)

instance : Monad Eff where
  pure := Eff.pure
  bind := Eff.bind

/-- The statement `try { m } catch (error) { handler }`. -/
def Eff.tryCatch {α : Type} (m : Eff α) (handler : String → Eff α) : Eff α := fun log =>
  match m log with
  | (.ok a, log1) => (.ok a, log1)
  | (.error e, log1) => handler e log1

/-- A step without network access that may throw. -/
def Eff.lift {α : Type} (r : Except String α) : Eff α := fun log => (r, log)

/-- The two awaits `fetch(url)` and `.json()`: one more URL fetched. -/
def fetchJson (net : Upstream) (url : String) : Eff Val := fun log => (net url, log ++ [url])

/-- The constant `corsHeaders`. -/
def corsHeaders : List (String × String) :=
  [("Access-Control-Allow-Origin", "https://hailspectrum.com"),
   ("Access-Control-Allow-Methods", "GET, POST, OPTIONS"),
   ("Access-Control-Allow-Headers", "Content-Type")]

/-- A response `new Response(JSON.stringify(v), ...)` with the CORS headers and the JSON
content type. -/
def jsonResponse (status : Nat) (v : Val) : Response :=
  { status := status
    headers := corsHeaders ++ [("Content-Type", "application/json")]
    body := .json v.toJSON }

/-! ## The census lookup -/

/-- The URL of the reverse-geocoding request: the template literal converts `lat`, then
`lon`, and throws when a conversion does. -/
def nominatimUrl (lat lon : Val) : Except String String := do
  let latText ← lat.toStr
  let lonText ← lon.toStr
  pure ("https://nominatim.openstreetmap.org/reverse?format=json&lat=" ++ latText
    ++ "&lon=" ++ lonText)

/-- The URL of the population request (`popUrl`): the template literal converts the
credential and throws when that conversion does. -/
def popUrl (zipCode : String) (key : Val) : Except String String := do
  let keyText ← key.toStr
  pure ("https://api.census.gov/data/2020/dec/pl?get=P1_001N,NAME&for=zip%20code%20tabulation%20area:"
    ++ zipCode ++ "&key=" ++ keyText)

/-- The expression `nominatimData.address?.postcode?.split("-")[0] || "Unknown"`:
only a string has a `split` that can be called. -/
def zipCodeOf (nominatimData : Val) : Except String String := do
  let address ← nominatimData.get "address"
  match address with
  | .undefined => pure "Unknown"
  | .null => pure "Unknown"
  | _ =>
    let postcode ← address.get "postcode"
    match postcode with
    | .undefined => pure "Unknown"
    | .null => pure "Unknown"
    | .str s =>
      match (splitChars '-' s.data)[0]? with
      | some seg => pure (if seg = [] then "Unknown" else String.mk seg)
      | none => pure "Unknown"
    | _ => throw "nominatimData.address?.postcode?.split is not a function"

/-- The value of `population` after `if (popData && popData[1]) { ... }`, or the message of
the error thrown by `parseInt` on a cell that has no string conversion. -/
def populationOf (popData : Val) : Except String JsNum :=
  if popData.truthy then do
    let row ← popData.index 1
    if row.truthy then do
      let cell ← row.index 0
      let zipPopulation ← parseInt cell
      pure (Math.round (zipPopulation.mul lit0_3))
    else pure lit7383
  else pure lit7383

/-- The `try` block of the census lookup. -/
def censusTry (request : Request) (env : Env) (net : Upstream) : Eff Response := do
  let body ← Eff.lift request.json
  let lat ← Eff.lift (body.get "lat")
  let lon ← Eff.lift (body.get "lon")
  let url ← Eff.lift (nominatimUrl lat lon)
  let nominatimData ← fetchJson net url
  let zipCode ← Eff.lift (zipCodeOf nominatimData)
  let population ←
    if zipCode ≠ "Unknown" ∧ env.CENSUS_API_KEY.truthy = true then do
      let url2 ← Eff.lift (popUrl zipCode env.CENSUS_API_KEY)
      let popData ← fetchJson net url2
      Eff.lift (populationOf popData)
    else pure lit7383
  pure (jsonResponse 200 (.obj [("zip", .str zipCode), ("population", .num population)]))

/-- The census lookup endpoint: the `try` block and its `catch`. -/
def censusLookup (request : Request) (env : Env) (net : Upstream) : Eff Response :=
  Eff.tryCatch (censusTry request env net) (fun _ =>
    pure (jsonResponse 200 (.obj [("zip", .str "Unknown"), ("population", .num lit7383)])))

/-! ## The property lookup -/

/-- The URL of the property request (`geocodioUrl`): the template literal converts `lat`,
`lon` and the credential in this order, and throws when a conversion does. -/
def geocodioUrl (lat lon key : Val) : Except String String := do
  let latText ← lat.toStr
  let lonText ← lon.toStr
  let keyText ← key.toStr
  pure ("https://api.geocod.io/v1.7/reverse?q=" ++ latText ++ "," ++ lonText
    ++ "&fields=cd&api_key=" ++ keyText)

/-- The `try` block of the property lookup. -/
def propertyTry (request : Request) (env : Env) (net : Upstream) : Eff Response := do
  let body ← Eff.lift request.json
  let lat ← Eff.lift (body.get "lat")
  let lon ← Eff.lift (body.get "lon")
  let url ← Eff.lift (geocodioUrl lat lon env.GEOCODIO_API_KEY)
  let data ← fetchJson net url
  let results ← Eff.lift (data.get "results")
  let first ← if results.truthy then Eff.lift (results.index 0) else pure results
  if first.truthy then do
    let result ← Eff.lift (results.index 0)
    let fields0 ← Eff.lift (result.get "fields")
    let fields := fields0.orElse (.obj [])
    let formatted_address ← Eff.lift (result.get "formatted_address")
    let property_type ← Eff.lift (fields.get "property_type")
    let year_built ← Eff.lift (fields.get "year_built")
    let bedrooms ← Eff.lift (fields.get "bedrooms")
    let bathrooms ← Eff.lift (fields.get "bathrooms")
    let square_footage ← Eff.lift (fields.get "square_footage")
    let lot_size ← Eff.lift (fields.get "lot_size")
    let assessed_value ← Eff.lift (fields.get "assessed_value")
    let market_value ← Eff.lift (fields.get "market_value")
    pure (jsonResponse 200 (.obj [
      ("address", formatted_address.orElse (.str "Unknown")),
      ("propertyType", property_type.orElse (.str "Unknown")),
      ("yearBuilt", year_built.orElse .null),
      ("bedrooms", bedrooms.orElse .null),
      ("bathrooms", bathrooms.orElse .null),
      ("sqft", square_footage.orElse .null),
      ("lotSize", lot_size.orElse .null),
      ("assessedValue", assessed_value.orElse .null),
      ("marketValue", market_value.orElse .null)]))
  else
    pure (jsonResponse 404 (.obj [("error", .str "No property data found")]))

/-- The property lookup endpoint: the `try` block and its `catch`, which answers with the
message of the error. -/
def propertyLookup (request : Request) (env : Env) (net : Upstream) : Eff Response :=
  Eff.tryCatch (propertyTry request env net) (fun message =>
    pure (jsonResponse 500 (.obj [("error", .str message)])))

/-! ## The handler -/

/-- The handler `fetch(request, env)` of the worker. -/
def fetch (request : Request) (env : Env) (net : Upstream) : Eff Response :=
  if request.method = "OPTIONS" then
    pure { status := 200, headers := corsHeaders, body := .empty }
  else if request.pathname = "/census-lookup" ∧ request.method = "POST" then
    censusLookup request env net
  else if request.pathname = "/property-lookup" ∧ request.method = "POST" then
    propertyLookup request env net
  else
    pure { status := 404, headers := [], body := .text "Not Found" }

/-- The response of one invocation that starts with no URL fetched; `none` would be an
error escaping the handler. -/
def respond (request : Request) (env : Env) (net : Upstream) : Option Response :=
  match (fetch request env net []).1 with
  | .ok r => some r
  | .error _ => none

/-- The URLs fetched by one invocation, in order. -/
def calls (request : Request) (env : Env) (net : Upstream) : List String :=
  (fetch request env net []).2

/-! ## Vocabulary of the specification -/

/-- The census response with the given ZIP and `population` member: status 200, the CORS
headers, the JSON content type and a body with exactly the members `zip` and `population`. -/
def censusResponse (zip : String) (population : Val) : Response :=
  { status := 200
    headers := corsHeaders ++ [("Content-Type", "application/json")]
    body := .json (.obj [("zip", .str zip), ("population", population)]) }

/-- The fallback of the census lookup: ZIP `"Unknown"` and population 7383. -/
def censusFallback : Response := censusResponse "Unknown" (.num lit7383)

/-- The Number that is the natural number `n`, written exactly (for `n` below `2^53`). -/
def natNum (n : Nat) : Val := .num (.fin false n 0)

/-- A string of exactly five decimal digits. -/
def isZip5 (s : String) : Bool :=
  s.data.length == 5 && s.data.all (fun c => decide (48 ≤ c.toNat ∧ c.toNat ≤ 57))

/-- The fraction `3 n / 10` rounded to the nearest integer, a half rounded up. -/
def threeTenthsRounded (n : Nat) : Nat := (3 * n + 5) / 10

/-- A network in which the reverse-geocoding host answers `geo` and any other host
answers `other`. -/
def hostsAnswer (geo other : Except String Val) : Upstream := fun url =>
  if url.data.take 36 = "https://nominatim.openstreetmap.org/".data then geo else other

/-- A census lookup request for a point in Fort Worth. -/
def sampleRequest : Request :=
  { method := "POST"
    pathname := "/census-lookup"
    json := .ok (.obj [("lat", .num (.fin false 131 2)), ("lon", .num (.fin true 195 1))]) }

/-- A configuration with both credentials. -/
def sampleEnv : Env := { CENSUS_API_KEY := .str "k", GEOCODIO_API_KEY := .str "g" }

/-- A configuration without the population credential. -/
def noKeyEnv : Env := { CENSUS_API_KEY := .undefined, GEOCODIO_API_KEY := .str "g" }

/-- A reverse-geocoding payload whose `address.postcode` is `postcode`. -/
def geocoded (postcode : Val) : Val :=
  .obj [("display_name", .str "Fort Worth, Tarrant County, Texas"),
        ("address", .obj [("city", .str "Fort Worth"), ("postcode", postcode)])]

/-- A population table: the header row, then one data row that starts with `cells`. -/
def popTable (cells : List Val) : Val :=
  .arr [.arr [.str "P1_001N", .str "NAME", .str "zip code tabulation area"], .arr cells]

/-- The member `key` of a value that is neither `null` nor `undefined`: an own member of
an object, `undefined` on anything else. -/
def Val.member (v : Val) (key : String) : Val :=
  match v with
  | .obj kvs => lookup key kvs
  | _ => .undefined

/-- The member `key` of the JSON body of a response (`undefined` when there is none). -/
def Response.member (r : Response) (key : String) : Val :=
  match r.body with
  | .json doc => doc.member key
  | _ => .undefined

/-- The names of the members of the JSON body of a response, in order. -/
def Response.keys (r : Response) : List String :=
  match r.body with
  | .json (.obj kvs) => kvs.map Prod.fst
  | _ => []

/-- An error response of the property lookup: the given status, the CORS headers, the JSON
content type and a body whose only member is `error`. -/
def errorResponse (status : Nat) (message : String) : Response :=
  { status := status
    headers := corsHeaders ++ [("Content-Type", "application/json")]
    body := .json (.obj [("error", .str message)]) }

/-- The response to an unregistered route: status 404, the plain text `Not Found`, and no
header passed in. -/
def notFoundResponse : Response := { status := 404, headers := [], body := .text "Not Found" }

/-- The response to a pre-flight request: status 200, the CORS headers, no body. -/
def preflightResponse : Response := { status := 200, headers := corsHeaders, body := .empty }

/-- The nine members of a successful property response, in order. -/
def propertyKeys : List String :=
  ["address", "propertyType", "yearBuilt", "bedrooms", "bathrooms", "sqft", "lotSize",
    "assessedValue", "marketValue"]

/-- The two textual attributes are handled apart; these are the seven numeric attributes
of the response, each with the upstream field it is read from. -/
def numericAttributes : List (String × String) :=
  [("yearBuilt", "year_built"), ("bedrooms", "bedrooms"), ("bathrooms", "bathrooms"),
    ("sqft", "square_footage"), ("lotSize", "lot_size"), ("assessedValue", "assessed_value"),
    ("marketValue", "market_value")]

/-- The `fields` object the attributes of a result are read from: `result.fields || {}`. -/
def fieldsOf (result : Val) : Val := (result.member "fields").orElse (.obj [])

/-- The expression `v || d` as `JSON.stringify` writes it, for a default `d` that is a
string or `null`: the value when it is truthy, the default otherwise. -/
def orDefault (v d : Val) : Val := if v.truthy then v.toJSON else d

/-- The successful property response built from one upstream result: status 200, the CORS
headers, the JSON content type, and the nine attributes, each read from the result or from
its `fields` and replaced by its default when missing or falsy. -/
def propertyResponseOf (result : Val) : Response :=
  { status := 200
    headers := corsHeaders ++ [("Content-Type", "application/json")]
    body := .json (.obj [
      ("address", orDefault (result.member "formatted_address") (.str "Unknown")),
      ("propertyType", orDefault ((fieldsOf result).member "property_type") (.str "Unknown")),
      ("yearBuilt", orDefault ((fieldsOf result).member "year_built") .null),
      ("bedrooms", orDefault ((fieldsOf result).member "bedrooms") .null),
      ("bathrooms", orDefault ((fieldsOf result).member "bathrooms") .null),
      ("sqft", orDefault ((fieldsOf result).member "square_footage") .null),
      ("lotSize", orDefault ((fieldsOf result).member "lot_size") .null),
      ("assessedValue", orDefault ((fieldsOf result).member "assessed_value") .null),
      ("marketValue", orDefault ((fieldsOf result).member "market_value") .null)]) }

/-- The upstream returned `outcome` to a call made during this invocation. -/
def Returned (request : Request) (env : Env) (net : Upstream) (outcome : Except String Val) :
    Prop :=
  ∃ url ∈ calls request env net, net url = outcome

/-- The payload has no usable first result: `data.results && data.results[0]` is falsy. -/
def NoFirstResult (results : Val) : Prop :=
  results.truthy = false ∨ ∃ first, results.index 0 = .ok first ∧ first.truthy = false

/-- A network that gives the same outcome to every request. -/
def allAnswer (outcome : Except String Val) : Upstream := fun _ => outcome

/-- A property lookup request for a point in Fort Worth. -/
def propertyRequest : Request :=
  { method := "POST"
    pathname := "/property-lookup"
    json := .ok (.obj [("lat", .num (.fin false 131 2)), ("lon", .num (.fin true 195 1))]) }

/-- A property payload with the given list of results. -/
def propertyPayload (results : List Val) : Val :=
  .obj [("input", .obj [("fields", .arr [.str "cd"])]), ("results", .arr results)]

/-- A property result with the given `fields` members. -/
def propertyResult (fields : List (String × Val)) : Val :=
  .obj [("formatted_address", .str "100 Main St, Fort Worth, TX 76102"),
        ("fields", .obj fields)]

/-- A POST to the given path whose body has an object with an own member `toString` as its
`lat`. -/
def oddLatRequest (pathname : String) : Request :=
  { method := "POST"
    pathname := pathname
    json := .ok (.obj [("lat", .obj [("toString", natNum 1)]), ("lon", .num (.fin true 195 1))]) }

/-- The outcome of the population step for a ZIP (the block guarded by the test on the ZIP
and the credential): the scaled population, or the message of the error thrown while
building the URL, by the call, or by `parseInt`. -/
def populationStep (net : Upstream) (zipCode : String) (key : Val) : Except String JsNum := do
  let url ← popUrl zipCode key
  let popData ← net url
  populationOf popData

/-! ## The map client (`src/pages/HailMap.jsx`) -/

/-- The integer `(-1)^neg * m`. -/
def JsNum.signed (neg : Bool) (m : Nat) : Int := if neg then -(m : Int) else (m : Int)

/-- JavaScript `>=` on Numbers: false as soon as one side is `NaN`; finite values are
compared exactly (the two zeros are equal). -/
def JsNum.ge : JsNum → JsNum → Bool
  | .nan, _ => false
  | _, .nan => false
  | .inf false, _ => true
  | .inf true, .inf true => true
  | .inf true, _ => false
  | .fin _ _ _, .inf t => t
  | .fin s m k, .fin t n j => decide (JsNum.signed t n * 2 ^ k ≤ JsNum.signed s m * 2 ^ j)

/-- JavaScript `/` on Numbers. -/
def JsNum.div : JsNum → JsNum → JsNum
  | .nan, _ => .nan
  | _, .nan => .nan
  | .inf _, .inf _ => .nan
  | .inf s, .fin t _ _ => .inf (xor s t)
  | .fin s _ _, .inf t => .fin (xor s t) 0 0
  | .fin s m k, .fin t n j =>
    if n = 0 then (if m = 0 then .nan else .inf (xor s t))
    else roundToDouble (xor s t) (m * 2 ^ j) (n * 2 ^ k)

/-- The literal `2`. -/
def lit2 : JsNum := .fin false 2 0

/-- The literal `1.75`. -/
def lit1_75 : JsNum := .fin false 7 2

/-- The literal `1`. -/
def lit1 : JsNum := .fin false 1 0

/-- The size of a storm report, `actualSize` in `parseSPCCSV`: the expression
`(parseFloat(parts[1]) || 75) / 100` on the Number `parsed` that `parseFloat` returned. -/
def actualSize (parsed : JsNum) : JsNum :=
  (if parsed.falsy then JsNum.fin false 75 0 else parsed).div (.fin false 100 0)

/-- The variable `color` of `createHailIcon(size)`: the fill of the map marker. -/
def createHailIconColor (size : JsNum) : String :=
  if size.ge lit2 then "#dc2626"
  else if size.ge lit1_75 then "#f97316"
  else if size.ge lit1 then "#eab308"
  else "#22c55e"

/-- The function `getSizeColor(size)`: the class of the dot in the list and in the popup. -/
def getSizeColor (size : JsNum) : String :=
  if size.ge lit2 then "bg-red-500"
  else if size.ge lit1_75 then "bg-orange-500"
  else if size.ge lit1 then "bg-yellow-500"
  else "bg-green-500"

/-- The object `{ zip, population }` that `getZipAndPopulation` resolves to. -/
structure ZipAndPopulation where
  zip : Val
  population : Val

/-- The broker as the client sees it: from the JSON document posted to `/census-lookup` to
the outcome of `fetch` followed by `response.json()`, the parsed body or the message of the
error thrown. -/
abbrev Broker := Val → Except String Val

/-- The `try` block of `getZipAndPopulation`. -/
def getZipAndPopulationTry (lat lon : Val) (broker : Broker) : Except String ZipAndPopulation := do
  let data ← broker (Val.obj [("lat", lat), ("lon", lon)]).toJSON
  let zip ← data.get "zip"
  let population ← data.get "population"
  pure { zip := zip.orElse (.str "Unknown"), population := population.orElse (.num lit7383) }

/-- The function `getZipAndPopulation(lat, lon)`: the `try` block and its `catch`. -/
def getZipAndPopulation (lat lon : Val) (broker : Broker) : ZipAndPopulation :=
  match getZipAndPopulationTry lat lon broker with
  | .ok r => r
  | .error _ => { zip := .str "Unknown", population := .num lit7383 }

/-- The four colour bands of the map. -/
inductive Band where
  | green
  | yellow
  | orange
  | red
  deriving DecidableEq, Repr

/-- The band a marker fill belongs to: the four fills are the red, orange, yellow and green
of the palette. -/
def hexBand (color : String) : Option Band :=
  if color = "#dc2626" then some .red
  else if color = "#f97316" then some .orange
  else if color = "#eab308" then some .yellow
  else if color = "#22c55e" then some .green
  else none

/-- The band a dot class belongs to. -/
def classBand (cls : String) : Option Band :=
  if cls = "bg-red-500" then some .red
  else if cls = "bg-orange-500" then some .orange
  else if cls = "bg-yellow-500" then some .yellow
  else if cls = "bg-green-500" then some .green
  else none

/-- The entries of the Hail Size Reference Guide: the band, the class of its dot, its name
and its range as printed. -/
def legend : List (Band × String × String × String) :=
  [(.green, "bg-green-500", "Pea/Penny", "<1 inch"),
   (.yellow, "bg-yellow-500", "Quarter", "1-1.75\""),
   (.orange, "bg-orange-500", "Golf Ball", "1.75-2\""),
   (.red, "bg-red-500", "Baseball+", "2+ inches")]

/-- The rational value of a finite Number. -/
def JsNum.toRat (neg : Bool) (m k : Nat) : ℚ := (JsNum.signed neg m : ℚ) / 2 ^ k

/-- The size is at least `q` inches (never so for `NaN`). -/
def sizeAtLeast (size : JsNum) (q : ℚ) : Prop :=
  match size with
  | .nan => False
  | .inf neg => neg = false
  | .fin neg m k => q ≤ JsNum.toRat neg m k

/-- The size is below `q` inches (never so for `NaN`). -/
def sizeBelow (size : JsNum) (q : ℚ) : Prop :=
  match size with
  | .nan => False
  | .inf neg => neg = true
  | .fin neg m k => JsNum.toRat neg m k < q

/-- The text of a string before its first hyphen (all of it when there is none). -/
def beforeFirstHyphen (s : String) : String :=
  String.mk (s.data.takeWhile (fun c => c != '-'))

/-- The ZIP the census lookup derives from the postal code `s`: the text before the first
hyphen, and `"Unknown"` in place of an empty one. -/
def zipOfPostcode (s : String) : String :=
  if beforeFirstHyphen s = "" then "Unknown" else beforeFirstHyphen s

/-! ## Unfolding the handler -/

theorem Eff.bind_apply {α β : Type} (m : Eff α) (f : α → Eff β) (log : List String) :
    (m >>= f) log = match m log with
      | (.ok a, log1) => f a log1
      | (.error e, log1) => (.error e, log1) := rfl

theorem Eff.pure_apply {α : Type} (a : α) (log : List String) :
    (pure a : Eff α) log = (.ok a, log) := rfl

theorem Eff.lift_apply {α : Type} (r : Except String α) (log : List String) :
    Eff.lift r log = (r, log) := rfl

theorem fetchJson_apply (net : Upstream) (url : String) (log : List String) :
    fetchJson net url log = (net url, log ++ [url]) := rfl

theorem jsonResponse_census (zip : String) (x : JsNum) :
    jsonResponse 200 (.obj [("zip", .str zip), ("population", .num x)])
      = censusResponse zip (Val.num x).toJSON := rfl

/-- The `try` block of the census lookup, step by step. -/
theorem censusTry_apply (request : Request) (env : Env) (net : Upstream) (log : List String) :
    censusTry request env net log =
      match request.json with
      | .error e => (.error e, log)
      | .ok body =>
        match body.get "lat" with
        | .error e => (.error e, log)
        | .ok lat =>
          match body.get "lon" with
          | .error e => (.error e, log)
          | .ok lon =>
            match nominatimUrl lat lon with
            | .error e => (.error e, log)
            | .ok url =>
              match net url with
              | .error e => (.error e, log ++ [url])
              | .ok nominatimData =>
                match zipCodeOf nominatimData with
                | .error e => (.error e, log ++ [url])
                | .ok zipCode =>
                  if zipCode ≠ "Unknown" ∧ env.CENSUS_API_KEY.truthy = true then
                    match popUrl zipCode env.CENSUS_API_KEY with
                    | .error e => (.error e, log ++ [url])
                    | .ok url2 =>
                      match net url2 with
                      | .error e => (.error e, log ++ [url] ++ [url2])
                      | .ok popData =>
                        match populationOf popData with
                        | .error e => (.error e, log ++ [url] ++ [url2])
                        | .ok population =>
                          (.ok (censusResponse zipCode (Val.num population).toJSON),
                            log ++ [url] ++ [url2])
                  else
                    (.ok (censusResponse zipCode (.num lit7383)), log ++ [url]) := by
  unfold censusTry
  simp only [Eff.bind_apply, Eff.lift_apply, fetchJson_apply, Eff.pure_apply]
  rcases request.json with e | body
  · rfl
  dsimp only
  rcases body.get "lat" with e | lat
  · rfl
  dsimp only
  rcases body.get "lon" with e | lon
  · rfl
  dsimp only
  rcases nominatimUrl lat lon with e | url
  · rfl
  dsimp only
  rcases net url with e | nominatimData
  · rfl
  dsimp only
  rcases zipCodeOf nominatimData with e | zipCode
  · rfl
  dsimp only
  by_cases hc : zipCode ≠ "Unknown" ∧ env.CENSUS_API_KEY.truthy = true
  · rw [if_pos hc, if_pos hc]
    simp only [Eff.bind_apply, Eff.lift_apply, fetchJson_apply, Eff.pure_apply]
    rcases popUrl zipCode env.CENSUS_API_KEY with e | url2
    · rfl
    dsimp only
    rcases net url2 with e | popData
    · rfl
    dsimp only
    rcases populationOf popData with e | population
    · rfl
    rfl
  · rw [if_neg hc, if_neg hc]
    rfl

/-- The response to a census lookup request, path by path. -/
theorem respond_census (request : Request) (env : Env) (net : Upstream)
    (hm : request.method = "POST") (hp : request.pathname = "/census-lookup") :
    respond request env net = some (
      match request.json with
      | .error _ => censusFallback
      | .ok body =>
        match body.get "lat" with
        | .error _ => censusFallback
        | .ok lat =>
          match body.get "lon" with
          | .error _ => censusFallback
          | .ok lon =>
            match nominatimUrl lat lon with
            | .error _ => censusFallback
            | .ok url =>
              match net url with
              | .error _ => censusFallback
              | .ok nominatimData =>
                match zipCodeOf nominatimData with
                | .error _ => censusFallback
                | .ok zipCode =>
                  if zipCode ≠ "Unknown" ∧ env.CENSUS_API_KEY.truthy = true then
                    match popUrl zipCode env.CENSUS_API_KEY with
                    | .error _ => censusFallback
                    | .ok url2 =>
                      match net url2 with
                      | .error _ => censusFallback
                      | .ok popData =>
                        match populationOf popData with
                        | .error _ => censusFallback
                        | .ok population =>
                          censusResponse zipCode (Val.num population).toJSON
                  else censusResponse zipCode (.num lit7383)) := by
  have h1 : fetch request env net = censusLookup request env net := by
    unfold fetch
    rw [if_neg (by rw [hm]; decide), if_pos ⟨hp, hm⟩]
  unfold respond
  rw [h1]
  unfold censusLookup Eff.tryCatch
  rw [censusTry_apply]
  rcases request.json with e | body
  · rfl
  dsimp only
  rcases body.get "lat" with e | lat
  · rfl
  dsimp only
  rcases body.get "lon" with e | lon
  · rfl
  dsimp only
  rcases nominatimUrl lat lon with e | url
  · rfl
  dsimp only
  rcases net url with e | nominatimData
  · rfl
  dsimp only
  rcases zipCodeOf nominatimData with e | zipCode
  · rfl
  dsimp only
  by_cases hc : zipCode ≠ "Unknown" ∧ env.CENSUS_API_KEY.truthy = true
  · rw [if_pos hc, if_pos hc]
    rcases popUrl zipCode env.CENSUS_API_KEY with e | url2
    · rfl
    dsimp only
    rcases net url2 with e | popData
    · rfl
    dsimp only
    rcases populationOf popData with e | population
    · rfl
    rfl
  · rw [if_neg hc, if_neg hc]

/-! ## Facts about the helpers -/

theorem toJSON_num_cases (x : JsNum) :
    (Val.num x).toJSON = .null ∨ ∃ y, (Val.num x).toJSON = .num y := by
  rcases x with _ | s | ⟨s, m, k⟩
  · exact Or.inl rfl
  · exact Or.inl rfl
  · right
    by_cases h : m = 0
    · exact ⟨.fin false 0 0, by subst h; rfl⟩
    · refine ⟨.fin s m k, ?_⟩
      show (if m = 0 then Val.num (.fin false 0 0) else Val.num (.fin s m k)) = _
      rw [if_neg h]

theorem index_ok_of_truthy (v : Val) (i : Nat) (h : v.truthy = true) :
    ∃ w, v.index i = .ok w := by
  cases v <;> simp [Val.truthy] at h <;> exact ⟨_, rfl⟩

/-- The scaling step throws exactly when `parseInt` does: the table and its second row are
truthy and the first cell of that row has no string conversion. -/
theorem populationOf_error_iff (popData : Val) (e : String) :
    populationOf popData = .error e ↔
      ∃ row cell, popData.truthy = true ∧ popData.index 1 = .ok row ∧ row.truthy = true
        ∧ row.index 0 = .ok cell ∧ cell.toStr = .error e := by
  unfold populationOf
  by_cases h1 : popData.truthy = true
  · rw [if_pos h1]
    obtain ⟨row, hrow⟩ := index_ok_of_truthy popData 1 h1
    rw [hrow]
    by_cases h2 : row.truthy = true
    · obtain ⟨cell, hcell⟩ := index_ok_of_truthy row 0 h2
      simp only [bind, Except.bind, h2, if_true, hcell, parseInt]
      rcases hs : cell.toStr with e1 | text
      · dsimp only
        constructor
        · intro h
          injection h with h
          subst h
          exact ⟨row, cell, h1, rfl, h2, hcell, hs⟩
        · rintro ⟨row1, cell1, _, hr1, _, hc1, ht1⟩
          injection hr1 with hr1
          subst hr1
          rw [hcell] at hc1
          injection hc1 with hc1
          subst hc1
          rw [hs] at ht1
          injection ht1 with ht1
          rw [ht1]
      · dsimp only
        constructor
        · intro h
          cases h
        · rintro ⟨row1, cell1, _, hr1, _, hc1, ht1⟩
          injection hr1 with hr1
          subst hr1
          rw [hcell] at hc1
          injection hc1 with hc1
          subst hc1
          rw [hs] at ht1
          cases ht1
    · simp only [bind, Except.bind, h2]
      constructor
      · intro h
        cases h
      · rintro ⟨row1, cell1, _, hr1, ht, _⟩
        injection hr1 with hr1
        subst hr1
        exact absurd ht h2
  · rw [if_neg h1]
    constructor
    · intro h
      cases h
    · rintro ⟨_, _, ht, _⟩
      exact absurd ht h1

/-- The population step, stage by stage. -/
theorem populationStep_apply (net : Upstream) (zipCode : String) (key : Val) :
    populationStep net zipCode key =
      match popUrl zipCode key with
      | .error e => .error e
      | .ok url =>
        match net url with
        | .error e => .error e
        | .ok popData => populationOf popData := by
  unfold populationStep
  rcases popUrl zipCode key with e | url
  · rfl
  · dsimp only [bind, Except.bind]
    rcases net url with e | popData <;> rfl

/-- The population step completes exactly when its URL is built, the call returns JSON and
the scaling does not throw. -/
theorem populationStep_ok_iff (net : Upstream) (zipCode : String) (key : Val) (x : JsNum) :
    populationStep net zipCode key = .ok x ↔
      ∃ url popData, popUrl zipCode key = .ok url ∧ net url = .ok popData
        ∧ populationOf popData = .ok x := by
  rw [populationStep_apply]
  rcases hu : popUrl zipCode key with e | url
  · constructor
    · intro h
      cases h
    · rintro ⟨_, _, h, _⟩
      cases h
  dsimp only
  rcases hn : net url with e | popData
  · constructor
    · intro h
      cases h
    · rintro ⟨url1, _, h1, h2, _⟩
      injection h1 with h1
      subst h1
      rw [hn] at h2
      cases h2
  dsimp only
  constructor
  · intro h
    exact ⟨url, popData, rfl, hn, h⟩
  · rintro ⟨url1, popData1, h1, h2, h3⟩
    injection h1 with h1
    subst h1
    rw [hn] at h2
    injection h2 with h2
    subst h2
    exact h3

/-- The first piece of a split is the text before the first separator. -/
theorem splitChars_head (sep : Char) (l : List Char) :
    (splitChars sep l)[0]? = some (l.takeWhile (fun c => c != sep)) := by
  induction l with
  | nil => rfl
  | cons c cs ih =>
    unfold splitChars
    by_cases h : c = sep
    · simp [h]
    · rw [if_neg h]
      rcases hs : splitChars sep cs with _ | ⟨seg, segs⟩
      · rw [hs] at ih
        simp at ih
      · rw [hs] at ih
        simp only [List.getElem?_cons_zero, Option.some.injEq] at ih
        have hne : (c != sep) = true := by simpa using h
        simp [List.takeWhile, hne, ih]

/-- The ZIP read from a payload whose `address.postcode` is the string `s`. -/
theorem zipCodeOf_str (nominatimData address : Val) (s : String)
    (ha : nominatimData.get "address" = .ok address)
    (hpc : address.get "postcode" = .ok (.str s)) :
    zipCodeOf nominatimData = .ok
      (if s.data.takeWhile (fun c => c != '-') = [] then "Unknown"
        else String.mk (s.data.takeWhile (fun c => c != '-'))) := by
  unfold zipCodeOf
  rw [ha]
  cases address with
  | undefined => simp [Val.get] at hpc
  | null => simp [Val.get] at hpc
  | _ =>
    simp only [bind, Except.bind, hpc, splitChars_head]
    rfl

/-- The ZIP read from a payload without a postal code. -/
theorem zipCodeOf_none (nominatimData : Val)
    (h : ∃ address, nominatimData.get "address" = .ok address
      ∧ (address = .undefined ∨ address = .null
        ∨ address.get "postcode" = .ok .undefined ∨ address.get "postcode" = .ok .null)) :
    zipCodeOf nominatimData = .ok "Unknown" := by
  unfold zipCodeOf
  obtain ⟨address, ha, hpc⟩ := h
  rw [ha]
  rcases hpc with h | h | h | h
  · rw [h]
    rfl
  · rw [h]
    rfl
  · cases address with
    | undefined => rfl
    | null => rfl
    | _ =>
      simp only [bind, Except.bind, h]
      rfl
  · cases address with
    | undefined => rfl
    | null => rfl
    | _ =>
      simp only [bind, Except.bind, h]
      rfl

/-- Every census lookup ends in the fallback, in the geocoded ZIP with the default
population, or in the geocoded ZIP with the scaled population. -/
theorem respond_census_cases (request : Request) (env : Env) (net : Upstream)
    (hm : request.method = "POST") (hp : request.pathname = "/census-lookup") :
    respond request env net = some censusFallback
    ∨ ∃ lat lon url nominatimData zipCode,
        nominatimUrl lat lon = .ok url
        ∧ net url = .ok nominatimData
        ∧ zipCodeOf nominatimData = .ok zipCode
        ∧ ((¬ (zipCode ≠ "Unknown" ∧ env.CENSUS_API_KEY.truthy = true)
              ∧ respond request env net = some (censusResponse zipCode (.num lit7383)))
          ∨ ((zipCode ≠ "Unknown" ∧ env.CENSUS_API_KEY.truthy = true)
              ∧ ∃ url2 popData population,
                  popUrl zipCode env.CENSUS_API_KEY = .ok url2
                  ∧ net url2 = .ok popData
                  ∧ populationOf popData = .ok population
                  ∧ respond request env net
                      = some (censusResponse zipCode (Val.num population).toJSON))) := by
  rw [respond_census request env net hm hp]
  rcases request.json with e | body
  · exact Or.inl rfl
  dsimp only
  rcases body.get "lat" with e | lat
  · exact Or.inl rfl
  dsimp only
  rcases body.get "lon" with e | lon
  · exact Or.inl rfl
  dsimp only
  rcases hu : nominatimUrl lat lon with e | url
  · exact Or.inl rfl
  dsimp only
  rcases hg : net url with e | nominatimData
  · exact Or.inl rfl
  dsimp only
  rcases hz : zipCodeOf nominatimData with e | zipCode
  · exact Or.inl rfl
  dsimp only
  by_cases hc : zipCode ≠ "Unknown" ∧ env.CENSUS_API_KEY.truthy = true
  · rw [if_pos hc]
    rcases hu2 : popUrl zipCode env.CENSUS_API_KEY with e | url2
    · exact Or.inl rfl
    dsimp only
    rcases hq : net url2 with e | popData
    · exact Or.inl rfl
    dsimp only
    rcases hpo : populationOf popData with e | population
    · exact Or.inl rfl
    exact Or.inr ⟨lat, lon, url, nominatimData, zipCode, hu, hg, hz,
      Or.inr ⟨hc, url2, popData, population, hu2, hq, hpo, rfl⟩⟩
  · rw [if_neg hc]
    exact Or.inr ⟨lat, lon, url, nominatimData, zipCode, hu, hg, hz, Or.inl ⟨hc, rfl⟩⟩

/-- The response of a census lookup once the ZIP is read: the geocoded ZIP with the default
or the scaled population, and the fallback when the population step throws. -/
theorem respond_census_of_zip (request : Request) (env : Env) (net : Upstream)
    (body lat lon nominatimData : Val) (url zipCode : String)
    (hm : request.method = "POST") (hp : request.pathname = "/census-lookup")
    (hbody : request.json = .ok body)
    (hlat : body.get "lat" = .ok lat) (hlon : body.get "lon" = .ok lon)
    (hurl : nominatimUrl lat lon = .ok url) (hgeo : net url = .ok nominatimData)
    (hzip : zipCodeOf nominatimData = .ok zipCode) :
    respond request env net = some (
      if zipCode ≠ "Unknown" ∧ env.CENSUS_API_KEY.truthy = true then
        match populationStep net zipCode env.CENSUS_API_KEY with
        | .ok population => censusResponse zipCode (Val.num population).toJSON
        | .error _ => censusFallback
      else censusResponse zipCode (.num lit7383)) := by
  rw [respond_census request env net hm hp, populationStep_apply]
  simp only [hbody, hlat, hlon, hurl, hgeo, hzip]
  by_cases hc : zipCode ≠ "Unknown" ∧ env.CENSUS_API_KEY.truthy = true
  · rw [if_pos hc, if_pos hc]
    rcases popUrl zipCode env.CENSUS_API_KEY with e | url2
    · rfl
    dsimp only
    rcases net url2 with e | popData
    · rfl
    dsimp only
    rcases populationOf popData with e | population <;> rfl
  · rw [if_neg hc, if_neg hc]

/-- A URL built for the reverse-geocoding request is answered by the geocoding host. -/
theorem hostsAnswer_geo (geo other : Except String Val) (lat lon : Val) (url : String)
    (h : nominatimUrl lat lon = .ok url) : hostsAnswer geo other url = geo := by
  unfold nominatimUrl at h
  rcases hl : lat.toStr with e | latText
  · rw [hl] at h
    cases h
  rcases hn : lon.toStr with e | lonText
  · rw [hl, hn] at h
    cases h
  rw [hl, hn] at h
  injection h with h
  subst h
  rfl

/-- A URL built for the population request is answered by the other host. -/
theorem hostsAnswer_pop (geo other : Except String Val) (zipCode : String) (key : Val)
    (url : String) (h : popUrl zipCode key = .ok url) : hostsAnswer geo other url = other := by
  unfold popUrl at h
  rcases hk : key.toStr with e | keyText
  · rw [hk] at h
    cases h
  rw [hk] at h
  injection h with h
  subst h
  rfl

/-- Without a second row the population stays at the default. -/
theorem populationOf_no_second_row (popData : Val)
    (h : popData.truthy = false ∨ ∃ row, popData.index 1 = .ok row ∧ row.truthy = false) :
    populationOf popData = .ok lit7383 := by
  unfold populationOf
  rcases h with h | ⟨row, hrow, ht⟩
  · rw [if_neg (by rw [h]; decide)]
    rfl
  · by_cases h1 : popData.truthy = true
    · rw [if_pos h1, hrow]
      simp only [bind, Except.bind, ht]
      rfl
    · rw [if_neg h1]
      rfl

/-! ## Arithmetic of the scaling step -/

theorem bitLenAux_spec : ∀ fuel n, n ≤ fuel →
    n < 2 ^ bitLenAux fuel n ∧ (n ≠ 0 → 2 ^ (bitLenAux fuel n - 1) ≤ n) := by
  intro fuel
  induction fuel with
  | zero =>
    intro n hn
    have h0 : n = 0 := by omega
    subst h0
    exact ⟨by simp [bitLenAux], fun h => absurd rfl h⟩
  | succ fuel ih =>
    intro n hn
    unfold bitLenAux
    by_cases h0 : n = 0
    · subst h0
      exact ⟨by simp, fun h => absurd rfl h⟩
    · rw [if_neg h0]
      obtain ⟨hlt, hge⟩ := ih (n / 2) (by omega)
      refine ⟨?_, fun _ => ?_⟩
      · rw [Nat.pow_succ]
        omega
      · rw [Nat.add_sub_cancel]
        by_cases h2 : n / 2 = 0
        · have h1 : n = 1 := by omega
          subst h1
          have : bitLenAux fuel (1 / 2) = 0 := by
            cases fuel <;> simp [bitLenAux]
          rw [this]
          simp
        · have hpos : 0 < bitLenAux fuel (n / 2) := by
            rcases Nat.eq_zero_or_pos (bitLenAux fuel (n / 2)) with hz | hz
            · rw [hz] at hlt
              omega
            · exact hz
          have h3 := hge h2
          have h4 : 2 ^ bitLenAux fuel (n / 2) = 2 * 2 ^ (bitLenAux fuel (n / 2) - 1) := by
            conv_lhs => rw [← Nat.sub_add_cancel hpos]
            rw [Nat.pow_succ, Nat.mul_comm]
          omega

theorem lt_two_pow_bitLen (n : Nat) : n < 2 ^ bitLen n :=
  (bitLenAux_spec n n (Nat.le_refl n)).1

theorem two_pow_bitLen_le (n : Nat) (h : n ≠ 0) : 2 ^ (bitLen n - 1) ≤ n :=
  (bitLenAux_spec n n (Nat.le_refl n)).2 h

theorem bitLen_pos (n : Nat) (h : n ≠ 0) : 0 < bitLen n := by
  rcases Nat.eq_zero_or_pos (bitLen n) with hz | hz
  · have := lt_two_pow_bitLen n
    rw [hz] at this
    omega
  · exact hz

theorem bitLen_le_of_lt (n k : Nat) (h : n < 2 ^ k) : bitLen n ≤ k := by
  by_cases h0 : n = 0
  · subst h0
    have : bitLen 0 = 0 := rfl
    omega
  · by_contra hc
    have h1 := two_pow_bitLen_le n h0
    have h2 : 2 ^ k ≤ 2 ^ (bitLen n - 1) := Nat.pow_le_pow_right (by decide) (by omega)
    omega

theorem normFin_mul_pow (t : Nat) : ∀ n, normFin (n * 2 ^ t) t = (n, 0) := by
  induction t with
  | zero => intro n; simp [normFin]
  | succ t ih =>
    intro n
    unfold normFin
    have h1 : n * 2 ^ (t + 1) % 2 = 0 := by
      rw [Nat.pow_succ, ← Nat.mul_assoc]
      exact Nat.mul_mod_left _ _
    have h2 : n * 2 ^ (t + 1) / 2 = n * 2 ^ t := by
      rw [Nat.pow_succ, ← Nat.mul_assoc]
      exact Nat.mul_div_cancel _ (by decide)
    rw [if_pos h1, h2]
    exact ih n

theorem rneDiv_one (n : Nat) : rneDiv n 1 = n := by
  unfold rneDiv
  simp [Nat.mod_one]

/-- The quotient chosen by `rneDiv` is within half a unit of the exact one. -/
theorem rneDiv_spec (n d : Nat) (hd : 0 < d) :
    2 * (rneDiv n d * d) ≤ 2 * n + d ∧ 2 * n ≤ 2 * (rneDiv n d * d) + d := by
  have h1 := Nat.div_add_mod n d
  have h2 := Nat.mod_lt n hd
  have h3 : (n / d + 1) * d = d * (n / d) + d := by ring
  have h4 : n / d * d = d * (n / d) := Nat.mul_comm _ _
  unfold rneDiv
  split
  · rename_i hc
    rw [h3]
    rcases hc with hc | ⟨hc, _⟩ <;> omega
  · rename_i hc
    rw [h4]
    have : ¬ d < 2 * (n % d) := fun h => hc (Or.inl h)
    omega

/-- A natural number below `2^52` is a Number as it stands. -/
theorem roundToDouble_nat (n : Nat) (hn : n < 2 ^ 52) :
    roundToDouble false n 1 = .fin false n 0 := by
  unfold roundToDouble
  by_cases h0 : n = 0
  · rw [if_pos h0, h0]
  rw [if_neg h0]
  have hL1 := bitLen_pos n h0
  have hL2 := bitLen_le_of_lt n 52 hn
  have hge := two_pow_bitLen_le n h0
  have hb1 : bitLen 1 = 1 := rfl
  have hE : binExponent n 1 = (bitLen n : Int) - 1 := by
    unfold binExponent
    have hc : 1 * 2 ^ bitLen n ≤ n * 2 ^ bitLen 1 := by
      rw [hb1]
      have : 2 ^ bitLen n = 2 * 2 ^ (bitLen n - 1) := by
        conv_lhs => rw [← Nat.sub_add_cancel hL1]
        rw [Nat.pow_succ, Nat.mul_comm]
      omega
    rw [if_pos hc, hb1]
    rfl
  have hq : max (binExponent n 1 - 52) (-1074) = -((53 - bitLen n : Nat) : Int) := by
    rw [hE]
    omega
  simp only [hq]
  have hneg : ¬ (0 : Int) ≤ -((53 - bitLen n : Nat) : Int) := by omega
  rw [if_neg hneg]
  simp only [neg_neg, Int.toNat_ofNat, rneDiv_one, normFin_mul_pow]

/-- Rounding after cancelling factors of two gives the same integer. -/
theorem round_normFin (t : Nat) : ∀ r,
    Math.round (.fin false (normFin r t).1 (normFin r t).2)
      = .fin false ((2 * r + 2 ^ t) / 2 ^ (t + 1)) 0 := by
  induction t with
  | zero =>
    intro r
    have : (2 * r + 2 ^ 0) / 2 ^ (0 + 1) = r := by
      simp only [Nat.pow_zero, Nat.zero_add, Nat.pow_one]
      omega
    rw [this]
    rfl
  | succ t ih =>
    intro r
    unfold normFin
    by_cases he : r % 2 = 0
    · rw [if_pos he, ih (r / 2)]
      have h1 : 2 * (r / 2) = r := by omega
      have h2 : 2 * r + 2 ^ (t + 1) = 2 * (r + 2 ^ t) := by
        rw [Nat.pow_succ]
        ring
      have h3 : 2 ^ (t + 1 + 1) = 2 * 2 ^ (t + 1) := by
        rw [Nat.pow_succ, Nat.mul_comm]
      rw [h1, h2, h3, Nat.mul_div_mul_left _ _ (by decide : 0 < 2)]
    · rw [if_neg he]
      have h2 : 2 * r + 2 ^ (t + 1) = 2 * (r + 2 ^ t) := by
        rw [Nat.pow_succ]
        ring
      have h3 : 2 ^ (t + 1 + 1) = 2 * 2 ^ (t + 1) := by
        rw [Nat.pow_succ, Nat.mul_comm]
      rw [h2, h3, Nat.mul_div_mul_left _ _ (by decide : 0 < 2)]
      rfl

/-- The quantum used for the product `a / 2^54` lies at or below `2^-3`, and the scaled
significand stays below `2^53`. -/
theorem product_quantum (a : Nat) (h0 : a ≠ 0) (ha : a < 2 ^ 104) :
    ∃ t : Nat, 3 ≤ t ∧ max (binExponent a (2 ^ 54) - 52) (-1074) = -(t : Int)
      ∧ a * 2 ^ t < 2 ^ 107 := by
  have hL1 := bitLen_pos a h0
  have hL2 := bitLen_le_of_lt a 104 ha
  have hlt := lt_two_pow_bitLen a
  have hb : bitLen (2 ^ 54) = 55 := by decide
  unfold binExponent
  rw [hb]
  by_cases hc : 2 ^ 54 * 2 ^ bitLen a ≤ a * 2 ^ 55
  · rw [if_pos hc]
    refine ⟨min (107 - bitLen a) 1074, by omega, by omega, ?_⟩
    have h1 : a * 2 ^ min (107 - bitLen a) 1074 ≤ a * 2 ^ (107 - bitLen a) :=
      Nat.mul_le_mul_left _ (Nat.pow_le_pow_right (by decide) (Nat.min_le_left _ _))
    have h2 : a * 2 ^ (107 - bitLen a) < 2 ^ bitLen a * 2 ^ (107 - bitLen a) :=
      Nat.mul_lt_mul_of_pos_right hlt (Nat.pow_pos (by decide))
    have h3 : 2 ^ bitLen a * 2 ^ (107 - bitLen a) = 2 ^ 107 := by
      rw [← Nat.pow_add]
      congr 1
      omega
    omega
  · rw [if_neg hc]
    refine ⟨min (108 - bitLen a) 1074, by omega, by omega, ?_⟩
    have h1 : a * 2 ^ min (108 - bitLen a) 1074 ≤ a * 2 ^ (108 - bitLen a) :=
      Nat.mul_le_mul_left _ (Nat.pow_le_pow_right (by decide) (Nat.min_le_left _ _))
    have h4 : 2 ^ bitLen a = 2 * 2 ^ (bitLen a - 1) := by
      conv_lhs => rw [← Nat.sub_add_cancel hL1]
      rw [Nat.pow_succ, Nat.mul_comm]
    have h5 : a < 2 ^ (bitLen a - 1) := by
      rw [h4] at hc
      omega
    have h2 : a * 2 ^ (108 - bitLen a) < 2 ^ (bitLen a - 1) * 2 ^ (108 - bitLen a) :=
      Nat.mul_lt_mul_of_pos_right h5 (Nat.pow_pos (by decide))
    have h3 : 2 ^ (bitLen a - 1) * 2 ^ (108 - bitLen a) = 2 ^ 107 := by
      rw [← Nat.pow_add]
      congr 1
      omega
    omega

/-- The heart of the scaling step: an integer within half a quantum `2^-t` (`t ≥ 3`) of
`n * 0.3` rounds to the same integer as `3 n / 10`, for `n` below `2^51`. -/
theorem round_scaled (n t r : Nat) (ht : 3 ≤ t) (hn : n < 2 ^ 51)
    (hr1 : 2 * (r * 2 ^ 54) ≤ 2 * (n * 5404319552844595 * 2 ^ t) + 2 ^ 54)
    (hr2 : 2 * (n * 5404319552844595 * 2 ^ t) ≤ 2 * (r * 2 ^ 54) + 2 ^ 54)
    (hlt : n * 5404319552844595 * 2 ^ t < 2 ^ 107) :
    (2 * r + 2 ^ t) / 2 ^ (t + 1) = (3 * n + 5) / 10 := by
  obtain ⟨Y, hY⟩ : ∃ Y, Y = 2 ^ (t - 1) := ⟨_, rfl⟩
  have hX : 2 ^ t = 2 * Y := by
    rw [hY]
    conv_lhs => rw [← Nat.sub_add_cancel (by omega : 1 ≤ t)]
    rw [Nat.pow_succ, Nat.mul_comm]
  have hX1 : 2 ^ (t + 1) = 4 * Y := by
    rw [Nat.pow_succ, hX]
    ring
  have hY4 : 4 ≤ Y := by
    rw [hY]
    calc 4 = 2 ^ 2 := by decide
      _ ≤ 2 ^ (t - 1) := Nat.pow_le_pow_right (by decide) (by omega)
  obtain ⟨P, hP⟩ : ∃ P, P = (3 * n + 5) / 10 := ⟨_, rfl⟩
  have hP1 : 10 * P ≤ 3 * n + 5 := by omega
  have hP2 : 3 * n + 6 ≤ 10 * P + 10 := by omega
  obtain ⟨nY, hnY⟩ : ∃ nY, nY = n * Y := ⟨_, rfl⟩
  obtain ⟨PY, hPY⟩ : ∃ PY, PY = P * Y := ⟨_, rfl⟩
  have e1 : 10 * PY ≤ 3 * nY + 5 * Y := by
    have := Nat.mul_le_mul_right Y hP1
    rw [hPY, hnY]
    linarith
  have e2 : 3 * nY + 6 * Y ≤ 10 * PY + 10 * Y := by
    have := Nat.mul_le_mul_right Y hP2
    rw [hPY, hnY]
    linarith
  have e3 : 3 * n + 5 = 10 * P → 3 * nY + 5 * Y = 10 * PY := by
    intro h
    rw [hPY, hnY]
    have : (3 * n + 5) * Y = 10 * P * Y := by rw [h]
    linarith
  have e4 : 10 * P + 1 ≤ 3 * n + 5 → 10 * PY + Y ≤ 3 * nY + 5 * Y := by
    intro h
    have := Nat.mul_le_mul_right Y h
    rw [hPY, hnY]
    linarith
  have e5 : nY ≤ (2 ^ 51 - 1) * Y := by
    rw [hnY]
    exact Nat.mul_le_mul_right Y (by omega)
  have e6 : n * 5404319552844595 * 2 ^ t = 10808639105689190 * nY := by
    rw [hX, hnY]
    ring
  rw [e6] at hr1 hr2 hlt
  rw [hX, hX1, ← hP]
  have e7 : P * (4 * Y) = 4 * PY := by rw [hPY]; ring
  have e8 : (P + 1) * (4 * Y) = 4 * PY + 4 * Y := by rw [hPY]; ring
  apply Nat.div_eq_of_lt_le
  · rw [e7]
    rcases Nat.lt_or_ge (3 * n + 5) (10 * P + 1) with hc | hc
    · have h3 := e3 (by omega)
      norm_num at hr1 hr2 hlt e5
      omega
    · have h4 := e4 hc
      norm_num at hr1 hr2 hlt e5
      omega
  · rw [e8]
    norm_num at hr1 hr2 hlt e5
    omega

/-- The scaling step `Math.round(n * 0.3)` on a count below `2^51` is `3 n / 10` rounded
to the nearest integer. -/
theorem round_mul_three_tenths (n : Nat) (hn : n < 2 ^ 51) :
    Math.round ((roundToDouble false n 1).mul lit0_3) = .fin false ((3 * n + 5) / 10) 0 := by
  rw [roundToDouble_nat n (by omega)]
  show Math.round (roundToDouble false (n * 5404319552844595) (2 ^ (0 + 54))) = _
  rw [Nat.zero_add]
  by_cases h0 : n = 0
  · subst h0
    rfl
  have ha0 : n * 5404319552844595 ≠ 0 := by omega
  have ha : n * 5404319552844595 < 2 ^ 104 := by
    have : n * 5404319552844595 < 2 ^ 51 * 2 ^ 53 :=
      Nat.mul_lt_mul'' hn (by decide)
    rw [← Nat.pow_add] at this
    exact this
  obtain ⟨t, ht, hq, hlt⟩ := product_quantum _ ha0 ha
  unfold roundToDouble
  rw [if_neg ha0]
  simp only [hq]
  rw [if_neg (by omega)]
  simp only [neg_neg, Int.toNat_ofNat]
  rw [round_normFin]
  obtain ⟨hr1, hr2⟩ := rneDiv_spec (n * 5404319552844595 * 2 ^ t) (2 ^ 54) (by decide)
  rw [round_scaled n t _ ht hn hr1 hr2 hlt]

/-! ## Reading a decimal count -/

theorem digitChar_toNat (d : Nat) (h : d < 10) : (Nat.digitChar d).toNat = 48 + d := by
  interval_cases d <;> rfl

theorem toDigitsCore_append : ∀ fuel n ds,
    Nat.toDigitsCore 10 fuel n ds = Nat.toDigitsCore 10 fuel n [] ++ ds := by
  intro fuel
  induction fuel with
  | zero => intro n ds; rfl
  | succ fuel ih =>
    intro n ds
    unfold Nat.toDigitsCore
    by_cases h : n / 10 = 0
    · simp [h]
    · simp only [h, if_false]
      rw [ih (n / 10) (Nat.digitChar (n % 10) :: ds), ih (n / 10) [Nat.digitChar (n % 10)]]
      simp

theorem toDigitsCore_fuel : ∀ fuel1 fuel2 n ds, n < fuel1 → n < fuel2 →
    Nat.toDigitsCore 10 fuel1 n ds = Nat.toDigitsCore 10 fuel2 n ds := by
  intro fuel1
  induction fuel1 with
  | zero => intro fuel2 n ds h; omega
  | succ fuel1 ih =>
    intro fuel2 n ds h1 h2
    cases fuel2 with
    | zero => omega
    | succ fuel2 =>
      unfold Nat.toDigitsCore
      by_cases h : n / 10 = 0
      · simp [h]
      · simp only [h, if_false]
        exact ih fuel2 (n / 10) _ (by omega) (by omega)

theorem toDigits_step (n : Nat) (h : 10 ≤ n) :
    Nat.toDigits 10 n = Nat.toDigits 10 (n / 10) ++ [Nat.digitChar (n % 10)] := by
  unfold Nat.toDigits
  conv_lhs => unfold Nat.toDigitsCore
  have h1 : n / 10 ≠ 0 := by omega
  simp only [h1, if_false]
  rw [toDigitsCore_append, toDigitsCore_fuel n (n / 10 + 1) (n / 10) [] (by omega) (by omega)]

theorem toDigits_small (n : Nat) (h : n < 10) : Nat.toDigits 10 n = [Nat.digitChar n] := by
  unfold Nat.toDigits Nat.toDigitsCore
  have h1 : n / 10 = 0 := by omega
  have h2 : n % 10 = n := by omega
  simp [h1, h2]

theorem digitValue_digit (c : Char) (h : 48 ≤ c.toNat ∧ c.toNat ≤ 57) :
    digitValue c = some (c.toNat - 48) := by
  unfold digitValue
  rw [if_pos h]

theorem digitsValue_snoc (l : List Char) (c : Char)
    (hc : 48 ≤ c.toNat ∧ c.toNat ≤ 57) :
    ∀ acc, (∀ x ∈ l, 48 ≤ x.toNat ∧ x.toNat ≤ 57) →
      digitsValue 10 (l ++ [c]) acc
        = some ((digitsValue 10 l acc).getD 0 * 10 + (c.toNat - 48)) := by
  induction l with
  | nil =>
    intro acc _
    simp only [List.nil_append, digitsValue, digitValue_digit c hc]
    rw [if_pos (by omega)]
  | cons x l ih =>
    intro acc hall
    have hx := hall x (List.mem_cons_self _ _)
    simp only [List.cons_append, digitsValue, digitValue_digit x hx]
    rw [if_pos (by omega), if_pos (by omega)]
    exact ih _ (fun y hy => hall y (List.mem_cons_of_mem _ hy))

/-- The decimal digits of `n` are digits, and read back as `n`. -/
theorem toDigits_spec (n : Nat) :
    (∀ x ∈ Nat.toDigits 10 n, 48 ≤ x.toNat ∧ x.toNat ≤ 57)
      ∧ digitsValue 10 (Nat.toDigits 10 n) none = some n := by
  induction n using Nat.strong_induction_on with
  | _ n ih =>
    by_cases h : n < 10
    · rw [toDigits_small n h]
      have hd := digitChar_toNat n h
      refine ⟨?_, ?_⟩
      · intro x hx
        rw [List.mem_singleton] at hx
        subst hx
        omega
      · simp only [digitsValue, digitValue_digit _ (by omega : 48 ≤ (Nat.digitChar n).toNat ∧ (Nat.digitChar n).toNat ≤ 57)]
        rw [if_pos (by omega), hd]
        simp
    · have hstep := toDigits_step n (by omega)
      obtain ⟨hall, hval⟩ := ih (n / 10) (by omega)
      have hd := digitChar_toNat (n % 10) (by omega)
      have hdc : 48 ≤ (Nat.digitChar (n % 10)).toNat ∧ (Nat.digitChar (n % 10)).toNat ≤ 57 := by
        omega
      rw [hstep]
      refine ⟨?_, ?_⟩
      · intro x hx
        rcases List.mem_append.mp hx with hx | hx
        · exact hall x hx
        · rw [List.mem_singleton] at hx
          subst hx
          exact hdc
      · rw [digitsValue_snoc _ _ hdc none hall, hval, hd]
        simp only [Option.getD_some, Nat.add_sub_cancel_left]
        congr 1
        omega

theorem not_whiteSpace_of_digit (c : Char) (h : 48 ≤ c.toNat ∧ c.toNat ≤ 57) :
    isStrWhiteSpace c = false := by
  unfold isStrWhiteSpace
  simp only [List.mem_cons, List.mem_singleton, List.not_mem_nil, Bool.or_eq_false_iff,
    decide_eq_false_iff_not, Bool.and_eq_false_iff, or_false]
  omega

/-- On a non-empty run of decimal digits `parseInt` reads the whole run in radix 10. -/
theorem parseIntChars_digits (ds : List Char) (hne : ds ≠ [])
    (hall : ∀ x ∈ ds, 48 ≤ x.toNat ∧ x.toNat ≤ 57) (n : Nat)
    (hval : digitsValue 10 ds none = some n) :
    parseIntChars ds = roundToDouble false n 1 := by
  rcases ds with _ | ⟨c, rest⟩
  · exact absurd rfl hne
  have hc := hall c (List.mem_cons_self _ _)
  unfold parseIntChars
  have hdrop : List.dropWhile isStrWhiteSpace (c :: rest) = c :: rest := by
    simp [List.dropWhile, not_whiteSpace_of_digit c hc]
  simp only [hdrop]
  have hsign : (match c :: rest with
      | '-' :: r => (true, r)
      | '+' :: r => (false, r)
      | r => (false, r)) = (false, c :: rest) := by
    split
    · rename_i heq
      injection heq with h1 h2
      subst h1
      exact absurd hc (by decide)
    · rename_i heq
      injection heq with h1 h2
      subst h1
      exact absurd hc (by decide)
    · rfl
  rw [hsign]
  have hbase : (match (false, c :: rest).2 with
      | '0' :: 'x' :: r => (16, r)
      | '0' :: 'X' :: r => (16, r)
      | r => (10, r)) = (10, c :: rest) := by
    split
    · rename_i heq
      injection heq with h1 h2
      have hx := hall 'x' (by rw [h2]; exact List.mem_cons_of_mem _ (List.mem_cons_self _ _))
      exact absurd hx (by decide)
    · rename_i heq
      injection heq with h1 h2
      have hx := hall 'X' (by rw [h2]; exact List.mem_cons_of_mem _ (List.mem_cons_self _ _))
      exact absurd hx (by decide)
    · rfl
  rw [hbase]
  simp only [hval]

/-- Reading the decimal string of a count. -/
theorem parseInt_decimal_string (n : Nat) :
    parseInt (.str (toString n)) = .ok (roundToDouble false n 1) := by
  obtain ⟨hall, hval⟩ := toDigits_spec n
  have hne : Nat.toDigits 10 n ≠ [] := by
    intro h
    rw [h] at hval
    simp [digitsValue] at hval
  exact congrArg Except.ok (parseIntChars_digits _ hne hall n hval)

/-- Reading a count given as a Number. -/
theorem parseInt_natNum (n : Nat) (hn : n < 2 ^ 53) :
    parseInt (natNum n) = .ok (roundToDouble false n 1) := by
  have hs : numberToString (.fin false n 0) = Nat.toDigits 10 n := by
    unfold numberToString
    by_cases h0 : n = 0
    · subst h0
      rfl
    · show (if n = 0 then ['0'] else if false = true then '-' :: posToString n 0
          else posToString n 0) = _
      rw [if_neg h0]
      simp only [Bool.false_eq_true, if_false]
      unfold posToString
      rw [if_pos ⟨rfl, hn⟩]
  obtain ⟨hall, hval⟩ := toDigits_spec n
  have hne : Nat.toDigits 10 n ≠ [] := by
    intro h
    rw [h] at hval
    simp [digitsValue] at hval
  show Except.ok (parseIntChars (numberToString (.fin false n 0))) = _
  rw [hs]
  exact congrArg Except.ok (parseIntChars_digits _ hne hall n hval)

/-- The scaling step on a table whose second row starts with a `cell` that `parseInt`
reads as `z`. -/
theorem populationOf_table (header cell : Val) (cells rows : List Val) (z : JsNum)
    (hparse : parseInt cell = .ok z) :
    populationOf (.arr (header :: .arr (cell :: cells) :: rows))
      = .ok (Math.round (z.mul lit0_3)) := by
  show (do
    let zipPopulation ← parseInt cell
    pure (Math.round (zipPopulation.mul lit0_3))) = _
  rw [hparse]
  rfl

theorem toJSON_natNum (n : Nat) : (Val.num (.fin false n 0)).toJSON = natNum n := by
  show (if n = 0 then Val.num (.fin false 0 0) else Val.num (.fin false n 0)) = _
  by_cases h : n = 0
  · rw [if_pos h, h]
    rfl
  · rw [if_neg h]
    rfl

theorem takeWhile_before_hyphen (d5 d4 : List Char)
    (h : ∀ x ∈ d5, 48 ≤ x.toNat ∧ x.toNat ≤ 57) :
    (d5 ++ '-' :: d4).takeWhile (fun c => c != '-') = d5 := by
  induction d5 with
  | nil => simp [List.takeWhile]
  | cons c cs ih =>
    have hc := h c (List.mem_cons_self _ _)
    have hne : (c != '-') = true := by
      rw [bne_iff_ne]
      intro he
      subst he
      exact absurd hc (by decide)
    have ih' := ih (fun x hx => h x (List.mem_cons_of_mem _ hx))
    simp only [List.cons_append, List.takeWhile, hne]
    exact congrArg (c :: ·) ih'

/-! ## The claims -/

/-- C1. Code evaluation at the failing inputs: when the first cell of the data row is the
string `"N/A"` the response carries `population: null`, and when it is `"-5"` the response
carries the population `-1`; neither is a non-negative integer. -/
theorem census_population_not_natural :
    respond sampleRequest sampleEnv
        (hostsAnswer (.ok (geocoded (.str "76102")))
          (.ok (popTable [.str "N/A", .str "ZCTA5 76102", .str "76102"])))
      = some (censusResponse "76102" .null)
    ∧ respond sampleRequest sampleEnv
        (hostsAnswer (.ok (geocoded (.str "76102")))
          (.ok (popTable [.str "-5", .str "ZCTA5 76102", .str "76102"])))
      = some (censusResponse "76102" (.num (.fin true 1 0))) :=
  ⟨rfl, rfl⟩

/-- C2, as stated, fails: a geocoded postal code `"SW1A 1AA"` is returned as the `zip`
unchanged, which is neither five numeric characters nor `"Unknown"`. -/
theorem census_zip_not_always_zip5 :
    respond sampleRequest noKeyEnv
        (hostsAnswer (.ok (geocoded (.str "SW1A 1AA"))) (.error "not called"))
      = some (censusResponse "SW1A 1AA" (natNum 7383))
    ∧ isZip5 "SW1A 1AA" = false ∧ "SW1A 1AA" ≠ "Unknown" :=
  ⟨rfl, rfl, by decide⟩

/-- C2, amended. For every POST to /census-lookup and every geocoding payload whose
`address.postcode` is a string `s`, the `zip` of the response is `"Unknown"` or the
non-empty text of `s` before its first hyphen; so it is five numeric characters or
`"Unknown"` whenever that text is five digits. -/
theorem census_zip_is_first_segment (request : Request) (env : Env) (net : Upstream)
    (nominatimData address : Val) (s : String)
    (hm : request.method = "POST") (hp : request.pathname = "/census-lookup")
    (hgeo : ∀ lat lon url, nominatimUrl lat lon = .ok url → net url = .ok nominatimData)
    (ha : nominatimData.get "address" = .ok address)
    (hpc : address.get "postcode" = .ok (.str s)) :
    ∃ zip population, respond request env net = some (censusResponse zip population)
      ∧ (zip = "Unknown"
          ∨ (zip.data = s.data.takeWhile (fun c => c != '-') ∧ zip.data ≠ []))
      ∧ (isZip5 (String.mk (s.data.takeWhile (fun c => c != '-'))) = true
          → zip = "Unknown" ∨ isZip5 zip = true) := by
  have key : ∀ zipCode, zipCodeOf nominatimData = .ok zipCode →
      (zipCode = "Unknown"
          ∨ (zipCode.data = s.data.takeWhile (fun c => c != '-') ∧ zipCode.data ≠ []))
      ∧ (isZip5 (String.mk (s.data.takeWhile (fun c => c != '-'))) = true
          → zipCode = "Unknown" ∨ isZip5 zipCode = true) := by
    intro zipCode hz
    rw [zipCodeOf_str nominatimData address s ha hpc] at hz
    by_cases he : s.data.takeWhile (fun c => c != '-') = []
    · rw [if_pos he] at hz
      injection hz with hz
      exact ⟨Or.inl hz.symm, fun _ => Or.inl hz.symm⟩
    · rw [if_neg he] at hz
      injection hz with hz
      subst hz
      exact ⟨Or.inr ⟨rfl, he⟩, fun h5 => Or.inr h5⟩
  rcases respond_census_cases request env net hm hp with h
    | ⟨lat, lon, url, nd, zipCode, hu, hg, hz,
        ⟨_, h⟩ | ⟨_, url2, popData, population, _, _, _, h⟩⟩
  · exact ⟨"Unknown", .num lit7383, h, Or.inl rfl, fun _ => Or.inl rfl⟩
  · rw [hgeo lat lon url hu] at hg
    injection hg with hg
    subst hg
    exact ⟨zipCode, _, h, key zipCode hz⟩
  · rw [hgeo lat lon url hu] at hg
    injection hg with hg
    subst hg
    exact ⟨zipCode, _, h, key zipCode hz⟩

/-- Witness for C2, amended: the postal code `"76102-1234"`. -/
theorem census_zip_is_first_segment_witness :
    ∃ zip population,
      respond sampleRequest sampleEnv
          (hostsAnswer (.ok (geocoded (.str "76102-1234")))
            (.ok (popTable [.str "41500", .str "ZCTA5 76102", .str "76102"])))
        = some (censusResponse zip population)
      ∧ (zip = "Unknown"
          ∨ (zip.data = "76102-1234".data.takeWhile (fun c => c != '-') ∧ zip.data ≠ []))
      ∧ (isZip5 (String.mk ("76102-1234".data.takeWhile (fun c => c != '-'))) = true
          → zip = "Unknown" ∨ isZip5 zip = true) :=
  census_zip_is_first_segment sampleRequest sampleEnv
    (hostsAnswer (.ok (geocoded (.str "76102-1234")))
      (.ok (popTable [.str "41500", .str "ZCTA5 76102", .str "76102"])))
    (geocoded (.str "76102-1234"))
    (.obj [("city", .str "Fort Worth"), ("postcode", .str "76102-1234")]) "76102-1234"
    rfl rfl (fun lat lon url h => hostsAnswer_geo _ _ lat lon url h) rfl rfl

/-- C3. A POST to /census-lookup always gets status 200 and a JSON body with exactly the
members `zip` (a string) and `population` (a number or `null`), whatever the request body,
the configuration and the upstream outcomes. -/
theorem census_lookup_never_errors (request : Request) (env : Env) (net : Upstream)
    (hm : request.method = "POST") (hp : request.pathname = "/census-lookup") :
    ∃ zip population, respond request env net = some (censusResponse zip population)
      ∧ (censusResponse zip population).status = 200
      ∧ (censusResponse zip population).body
          = .json (.obj [("zip", .str zip), ("population", population)])
      ∧ (population = .null ∨ ∃ x, population = .num x) := by
  rcases respond_census_cases request env net hm hp with h
    | ⟨lat, lon, url, nd, zipCode, hu, hg, hz,
        ⟨_, h⟩ | ⟨_, url2, popData, population, _, _, _, h⟩⟩
  · exact ⟨"Unknown", .num lit7383, h, rfl, rfl, Or.inr ⟨_, rfl⟩⟩
  · exact ⟨zipCode, .num lit7383, h, rfl, rfl, Or.inr ⟨_, rfl⟩⟩
  · exact ⟨zipCode, _, h, rfl, rfl, toJSON_num_cases population⟩

/-- Witness for C3: a request whose body cannot be parsed, on a dead network. -/
theorem census_lookup_never_errors_witness :
    ∃ zip population,
      respond { method := "POST", pathname := "/census-lookup", json := .error "Unexpected token" }
          noKeyEnv (fun _ => .error "network down")
        = some (censusResponse zip population)
      ∧ (censusResponse zip population).status = 200
      ∧ (censusResponse zip population).body
          = .json (.obj [("zip", .str zip), ("population", population)])
      ∧ (population = .null ∨ ∃ x, population = .num x) :=
  census_lookup_never_errors
    { method := "POST", pathname := "/census-lookup", json := .error "Unexpected token" }
    noKeyEnv (fun _ => .error "network down") rfl rfl

/-- C4. If the geocoding call fails, the census lookup answers with status 200 and the body
`zip: "Unknown", population: 7383`, for every request and configuration. -/
theorem census_fallback_when_geocoding_fails (request : Request) (env : Env) (net : Upstream)
    (hm : request.method = "POST") (hp : request.pathname = "/census-lookup")
    (hgeo : ∀ lat lon url, nominatimUrl lat lon = .ok url → ∃ e, net url = .error e) :
    respond request env net = some (censusResponse "Unknown" (natNum 7383)) := by
  rcases respond_census_cases request env net hm hp with h
    | ⟨lat, lon, url, nd, zipCode, hu, hg, _⟩
  · exact h
  · obtain ⟨e, he⟩ := hgeo lat lon url hu
    rw [he] at hg
    cases hg

/-- Witness for C4: the geocoder is unreachable while the population service is up. -/
theorem census_fallback_when_geocoding_fails_witness :
    respond sampleRequest sampleEnv
        (hostsAnswer (.error "fetch failed") (.ok (popTable [.str "41500"])))
      = some (censusResponse "Unknown" (natNum 7383)) :=
  census_fallback_when_geocoding_fails sampleRequest sampleEnv
    (hostsAnswer (.error "fetch failed") (.ok (popTable [.str "41500"])))
    rfl rfl (fun lat lon url h => ⟨"fetch failed", hostsAnswer_geo _ _ lat lon url h⟩)

/-- C5. Code evaluation at the failing input: when the data row is present but has no first
cell, the lookup does not keep the default 7383: it scales `NaN` and answers with
`population: null`. -/
theorem census_population_null_on_empty_row :
    respond sampleRequest sampleEnv
        (hostsAnswer (.ok (geocoded (.str "76102"))) (.ok (popTable [])))
      = some (censusResponse "76102" .null) :=
  rfl

set_option maxRecDepth 100000 in
/-- C6, as stated, fails: a raw count of 8000000000000008 (given as a decimal string) gives
the population 2400000000000003, although `0.3 n = 2400000000000002.4` rounds to
2400000000000002: the binary64 product is `2400000000000002.5`. -/
theorem census_scaling_off_for_large_count :
    respond sampleRequest sampleEnv
        (hostsAnswer (.ok (geocoded (.str "76102")))
          (.ok (popTable [.str "8000000000000008", .str "ZCTA5 76102", .str "76102"])))
      = some (censusResponse "76102" (natNum 2400000000000003))
    ∧ threeTenthsRounded 8000000000000008 = 2400000000000002
    ∧ 3 * 8000000000000008 + 5 < 10 * 2400000000000003 :=
  ⟨rfl, by decide, by decide⟩

/-- C6, amended. When geocoding yields a ZIP, the credential is configured and the
population table has the raw count `n < 2^51` in the first column of its second row, as a
Number or as a decimal string, the returned population is `n * 0.3` rounded to the nearest
integer (a half rounded up). -/
theorem census_scaled_population (request : Request) (env : Env) (net : Upstream)
    (body lat lon nominatimData header cell : Val) (cells rows : List Val)
    (url url2 zipCode : String) (n : Nat)
    (hm : request.method = "POST") (hp : request.pathname = "/census-lookup")
    (hbody : request.json = .ok body)
    (hlat : body.get "lat" = .ok lat) (hlon : body.get "lon" = .ok lon)
    (hurl : nominatimUrl lat lon = .ok url)
    (hgeo : net url = .ok nominatimData)
    (hzip : zipCodeOf nominatimData = .ok zipCode) (hknown : zipCode ≠ "Unknown")
    (hkey : env.CENSUS_API_KEY.truthy = true)
    (hurl2 : popUrl zipCode env.CENSUS_API_KEY = .ok url2)
    (hpop : net url2 = .ok (.arr (header :: .arr (cell :: cells) :: rows)))
    (hcell : cell = natNum n ∨ cell = .str (toString n))
    (hn : n < 2 ^ 51) :
    respond request env net = some (censusResponse zipCode (natNum (threeTenthsRounded n))) := by
  have hparse : parseInt cell = .ok (roundToDouble false n 1) := by
    rcases hcell with h | h
    · rw [h]
      exact parseInt_natNum n (by omega)
    · rw [h]
      exact parseInt_decimal_string n
  have hscaled := populationOf_table header cell cells rows _ hparse
  rw [respond_census request env net hm hp]
  simp only [hbody, hlat, hlon, hurl, hgeo, hzip]
  rw [if_pos ⟨hknown, hkey⟩]
  simp only [hurl2, hpop, hscaled, round_mul_three_tenths n hn, toJSON_natNum]
  rfl

/-- Witness for C6, amended: the raw count 41500 gives the population 12450. -/
theorem census_scaled_population_witness :
    respond sampleRequest sampleEnv
        (hostsAnswer (.ok (geocoded (.str "76102-1234")))
          (.ok (popTable [.str "41500", .str "ZCTA5 76102", .str "76102"])))
      = some (censusResponse "76102" (natNum 12450)) :=
  census_scaled_population sampleRequest sampleEnv
    (hostsAnswer (.ok (geocoded (.str "76102-1234")))
      (.ok (popTable [.str "41500", .str "ZCTA5 76102", .str "76102"])))
    (.obj [("lat", .num (.fin false 131 2)), ("lon", .num (.fin true 195 1))])
    (.num (.fin false 131 2)) (.num (.fin true 195 1))
    (geocoded (.str "76102-1234"))
    (.arr [.str "P1_001N", .str "NAME", .str "zip code tabulation area"])
    (.str "41500") [.str "ZCTA5 76102", .str "76102"] []
    "https://nominatim.openstreetmap.org/reverse?format=json&lat=32.75&lon=-97.5"
    "https://api.census.gov/data/2020/dec/pl?get=P1_001N,NAME&for=zip%20code%20tabulation%20area:76102&key=k"
    "76102" 41500
    rfl rfl rfl rfl rfl rfl rfl rfl (by decide) rfl rfl rfl (Or.inr rfl) (by decide)

/-- C7. If `CENSUS_API_KEY` is undefined or empty, the population is exactly 7383 for every
request and every geocoding outcome. -/
theorem census_population_default_without_key (request : Request) (env : Env) (net : Upstream)
    (hm : request.method = "POST") (hp : request.pathname = "/census-lookup")
    (hkey : env.CENSUS_API_KEY = .undefined ∨ env.CENSUS_API_KEY = .str "") :
    ∃ zip, respond request env net = some (censusResponse zip (natNum 7383)) := by
  have hfalse : env.CENSUS_API_KEY.truthy = false := by
    rcases hkey with h | h <;> rw [h] <;> rfl
  rcases respond_census_cases request env net hm hp with h
    | ⟨lat, lon, url, nd, zipCode, hu, hg, hz, ⟨_, h⟩ | ⟨⟨_, hk⟩, _⟩⟩
  · exact ⟨"Unknown", h⟩
  · exact ⟨zipCode, h⟩
  · rw [hfalse] at hk
    cases hk

/-- Witness for C7: no credential, geocoding succeeds. -/
theorem census_population_default_without_key_witness :
    ∃ zip,
      respond sampleRequest noKeyEnv
          (hostsAnswer (.ok (geocoded (.str "76102"))) (.ok (popTable [.str "41500"])))
        = some (censusResponse zip (natNum 7383)) :=
  census_population_default_without_key sampleRequest noKeyEnv
    (hostsAnswer (.ok (geocoded (.str "76102"))) (.ok (popTable [.str "41500"])))
    rfl rfl (Or.inl rfl)

/-- C8, as stated, fails: the geocoder returns `"76102-1234"`, the credential is configured
and the population call fails; the returned `zip` is `"Unknown"`, not `"76102"`. -/
theorem census_zip_lost_when_population_call_fails :
    respond sampleRequest sampleEnv
        (hostsAnswer (.ok (geocoded (.str "76102-1234"))) (.error "fetch failed"))
      = some (censusResponse "Unknown" (natNum 7383))
    ∧ "Unknown" ≠ "76102" :=
  ⟨rfl, by decide⟩

/-- C8, amended. If the geocoder returns a postal code made of five digits, a hyphen and a
suffix (a four-digit one in particular), the returned `zip` is exactly the five leading
digits unless the credential is configured and the population step throws (its URL cannot
be built, the call fails, or `parseInt` throws on the count); in that case the `zip` is
`"Unknown"`. -/
theorem census_zip_five_leading_digits (request : Request) (env : Env) (net : Upstream)
    (body lat lon nominatimData address : Val) (url : String) (d5 d4 : List Char)
    (hm : request.method = "POST") (hp : request.pathname = "/census-lookup")
    (hbody : request.json = .ok body)
    (hlat : body.get "lat" = .ok lat) (hlon : body.get "lon" = .ok lon)
    (hurl : nominatimUrl lat lon = .ok url)
    (hgeo : net url = .ok nominatimData)
    (ha : nominatimData.get "address" = .ok address)
    (hpc : address.get "postcode" = .ok (.str (String.mk (d5 ++ '-' :: d4))))
    (h5 : isZip5 (String.mk d5) = true) :
    respond request env net = some (
      if env.CENSUS_API_KEY.truthy = true then
        match populationStep net (String.mk d5) env.CENSUS_API_KEY with
        | .ok population => censusResponse (String.mk d5) (Val.num population).toJSON
        | .error _ => censusResponse "Unknown" (natNum 7383)
      else censusResponse (String.mk d5) (natNum 7383)) := by
  have h5' : d5.length = 5 ∧ ∀ x ∈ d5, 48 ≤ x.toNat ∧ x.toNat ≤ 57 := by
    simpa [isZip5] using h5
  have hne : d5 ≠ [] := by
    intro h
    rw [h] at h5'
    simp at h5'
  have hknown : String.mk d5 ≠ "Unknown" := by
    intro h
    have hl := congrArg (fun t : String => t.data.length) h
    have h7 : "Unknown".data.length = 7 := rfl
    simp only [h7] at hl
    omega
  have hzip : zipCodeOf nominatimData = .ok (String.mk d5) := by
    rw [zipCodeOf_str nominatimData address _ ha hpc]
    simp only [takeWhile_before_hyphen d5 d4 h5'.2]
    rw [if_neg hne]
  rw [respond_census_of_zip request env net body lat lon nominatimData url (String.mk d5)
    hm hp hbody hlat hlon hurl hgeo hzip]
  by_cases hk : env.CENSUS_API_KEY.truthy = true
  · rw [if_pos ⟨hknown, hk⟩, if_pos hk]
    rfl
  · rw [if_neg (fun h => hk h.2), if_neg hk]
    rfl

/-- Witness for C8, amended: the postal code `"76102-1234"`, the credential configured and
a population table with the count 41500. -/
theorem census_zip_five_leading_digits_witness :
    respond sampleRequest sampleEnv
        (hostsAnswer (.ok (geocoded (.str "76102-1234")))
          (.ok (popTable [.str "41500", .str "ZCTA5 76102", .str "76102"])))
      = some (
        if sampleEnv.CENSUS_API_KEY.truthy = true then
          match populationStep
              (hostsAnswer (.ok (geocoded (.str "76102-1234")))
                (.ok (popTable [.str "41500", .str "ZCTA5 76102", .str "76102"])))
              (String.mk ['7', '6', '1', '0', '2']) sampleEnv.CENSUS_API_KEY with
          | .ok population =>
            censusResponse (String.mk ['7', '6', '1', '0', '2']) (Val.num population).toJSON
          | .error _ => censusResponse "Unknown" (natNum 7383)
        else censusResponse (String.mk ['7', '6', '1', '0', '2']) (natNum 7383)) :=
  census_zip_five_leading_digits sampleRequest sampleEnv
    (hostsAnswer (.ok (geocoded (.str "76102-1234")))
      (.ok (popTable [.str "41500", .str "ZCTA5 76102", .str "76102"])))
    (.obj [("lat", .num (.fin false 131 2)), ("lon", .num (.fin true 195 1))])
    (.num (.fin false 131 2)) (.num (.fin true 195 1))
    (geocoded (.str "76102-1234"))
    (.obj [("city", .str "Fort Worth"), ("postcode", .str "76102-1234")])
    "https://nominatim.openstreetmap.org/reverse?format=json&lat=32.75&lon=-97.5"
    ['7', '6', '1', '0', '2'] ['1', '2', '3', '4']
    rfl rfl rfl rfl rfl rfl rfl rfl rfl rfl

/-- C9. If the geocoding payload carries no postal code (its `address` is missing or
`null`, or is there without a `postcode`, or with a `null` one), the census lookup answers
`zip: "Unknown", population: 7383`, with or without the population credential. -/
theorem census_fallback_without_postcode (request : Request) (env : Env) (net : Upstream)
    (nominatimData : Val)
    (hm : request.method = "POST") (hp : request.pathname = "/census-lookup")
    (hgeo : ∀ lat lon url, nominatimUrl lat lon = .ok url → net url = .ok nominatimData)
    (hno : ∃ address, nominatimData.get "address" = .ok address
      ∧ (address = .undefined ∨ address = .null
        ∨ address.get "postcode" = .ok .undefined ∨ address.get "postcode" = .ok .null)) :
    respond request env net = some (censusResponse "Unknown" (natNum 7383)) := by
  have hzip := zipCodeOf_none nominatimData hno
  rcases respond_census_cases request env net hm hp with h
    | ⟨lat, lon, url, nd, zipCode, hurl, hg, hz, ⟨_, h⟩ | ⟨⟨hu, _⟩, _⟩⟩
  · exact h
  · rw [hgeo lat lon url hurl] at hg
    injection hg with hg
    subst hg
    rw [hzip] at hz
    injection hz with hz
    subst hz
    exact h
  · rw [hgeo lat lon url hurl] at hg
    injection hg with hg
    subst hg
    rw [hzip] at hz
    injection hz with hz
    exact absurd hz.symm hu

/-- Witness for C9: an address without a postal code, the credential configured. -/
theorem census_fallback_without_postcode_witness :
    respond sampleRequest sampleEnv
        (hostsAnswer (.ok (.obj [("address", .obj [("city", .str "Fort Worth")])]))
          (.ok (popTable [.str "41500"])))
      = some (censusResponse "Unknown" (natNum 7383)) :=
  census_fallback_without_postcode sampleRequest sampleEnv
    (hostsAnswer (.ok (.obj [("address", .obj [("city", .str "Fort Worth")])]))
      (.ok (popTable [.str "41500"])))
    (.obj [("address", .obj [("city", .str "Fort Worth")])])
    rfl rfl (fun lat lon url h => hostsAnswer_geo _ _ lat lon url h)
    ⟨.obj [("city", .str "Fort Worth")], rfl, Or.inr (Or.inr (Or.inl rfl))⟩

/-- C10. If the credential is configured and the population call itself fails, the census
lookup answers with status 200 and the body `zip: "Unknown", population: 7383`, whatever
the geocoder returned, a valid ZIP included. -/
theorem census_fallback_when_population_call_fails (request : Request) (env : Env)
    (net : Upstream)
    (hm : request.method = "POST") (hp : request.pathname = "/census-lookup")
    (hkey : env.CENSUS_API_KEY.truthy = true)
    (hpop : ∀ zipCode key url, popUrl zipCode key = .ok url → ∃ e, net url = .error e) :
    respond request env net = some (censusResponse "Unknown" (natNum 7383)) := by
  rcases respond_census_cases request env net hm hp with h
    | ⟨lat, lon, url, nd, zipCode, hu, hg, hz,
        ⟨hc, h⟩ | ⟨_, url2, popData, population, hu2, hq, _⟩⟩
  · exact h
  · have hu : zipCode = "Unknown" := by
      by_contra hne
      exact hc ⟨hne, hkey⟩
    subst hu
    exact h
  · obtain ⟨e, he⟩ := hpop zipCode env.CENSUS_API_KEY url2 hu2
    rw [he] at hq
    cases hq

/-- Witness for C10: the geocoder gives the ZIP 76102, the population service is down. -/
theorem census_fallback_when_population_call_fails_witness :
    respond sampleRequest sampleEnv
        (hostsAnswer (.ok (geocoded (.str "76102"))) (.error "fetch failed"))
      = some (censusResponse "Unknown" (natNum 7383)) :=
  census_fallback_when_population_call_fails sampleRequest sampleEnv
    (hostsAnswer (.ok (geocoded (.str "76102"))) (.error "fetch failed"))
    rfl rfl rfl (fun zipCode key url h => ⟨"fetch failed", hostsAnswer_pop _ _ zipCode key url h⟩)

/-! ## Facts about the property lookup -/

theorem get_of_truthy (v : Val) (key : String) (h : v.truthy = true) :
    v.get key = .ok (v.member key) := by
  cases v <;> first | rfl | (exact absurd h (by decide))

theorem ne_undefined_of_truthy (v : Val) (h : v.truthy = true) : v ≠ .undefined := by
  intro hv
  rw [hv] at h
  exact absurd h (by decide)

theorem orElse_truthy (v d : Val) (hd : d.truthy = true) : (v.orElse d).truthy = true := by
  unfold Val.orElse
  by_cases h : v.truthy = true
  · rw [if_pos h]
    exact h
  · rw [if_neg h]
    exact hd

theorem fieldsOf_truthy (result : Val) : (fieldsOf result).truthy = true :=
  orElse_truthy _ _ rfl

theorem orElse_ne_undefined (v d : Val) (hd : d ≠ .undefined) : v.orElse d ≠ .undefined := by
  unfold Val.orElse
  by_cases h : v.truthy = true
  · rw [if_pos h]
    exact ne_undefined_of_truthy v h
  · rw [if_neg h]
    exact hd

theorem orElse_toJSON (v d : Val) (hd : d.toJSON = d) : (v.orElse d).toJSON = orDefault v d := by
  unfold Val.orElse orDefault
  by_cases h : v.truthy = true
  · rw [if_pos h, if_pos h]
  · rw [if_neg h, if_neg h]
    exact hd

theorem membersJSON_cons (k : String) (v : Val) (rest : List (String × Val))
    (h : v ≠ .undefined) :
    membersJSON ((k, v) :: rest) = (k, v.toJSON) :: membersJSON rest := by
  cases v <;> first | rfl | (exact absurd rfl h)

/-- The serialised success body, attribute by attribute. -/
theorem jsonResponse_property (result : Val) :
    jsonResponse 200 (.obj [
      ("address", (result.member "formatted_address").orElse (.str "Unknown")),
      ("propertyType", ((fieldsOf result).member "property_type").orElse (.str "Unknown")),
      ("yearBuilt", ((fieldsOf result).member "year_built").orElse .null),
      ("bedrooms", ((fieldsOf result).member "bedrooms").orElse .null),
      ("bathrooms", ((fieldsOf result).member "bathrooms").orElse .null),
      ("sqft", ((fieldsOf result).member "square_footage").orElse .null),
      ("lotSize", ((fieldsOf result).member "lot_size").orElse .null),
      ("assessedValue", ((fieldsOf result).member "assessed_value").orElse .null),
      ("marketValue", ((fieldsOf result).member "market_value").orElse .null)])
      = propertyResponseOf result := by
  have hs : (Val.str "Unknown") ≠ .undefined := fun h => by cases h
  have hn : Val.null ≠ .undefined := fun h => by cases h
  have hobj : ∀ kvs, (Val.obj kvs).toJSON = .obj (membersJSON kvs) := fun _ => rfl
  have hnil : membersJSON [] = [] := rfl
  unfold jsonResponse propertyResponseOf
  rw [hobj]
  rw [membersJSON_cons _ _ _ (orElse_ne_undefined _ _ hs),
    membersJSON_cons _ _ _ (orElse_ne_undefined _ _ hs),
    membersJSON_cons _ _ _ (orElse_ne_undefined _ _ hn),
    membersJSON_cons _ _ _ (orElse_ne_undefined _ _ hn),
    membersJSON_cons _ _ _ (orElse_ne_undefined _ _ hn),
    membersJSON_cons _ _ _ (orElse_ne_undefined _ _ hn),
    membersJSON_cons _ _ _ (orElse_ne_undefined _ _ hn),
    membersJSON_cons _ _ _ (orElse_ne_undefined _ _ hn),
    membersJSON_cons _ _ _ (orElse_ne_undefined _ _ hn), hnil]
  simp only [orElse_toJSON _ _ (rfl : (Val.str "Unknown").toJSON = Val.str "Unknown"),
    orElse_toJSON _ _ (rfl : Val.null.toJSON = Val.null)]

/-- The property lookup, step by step: the response and the URLs fetched. -/
theorem propertyLookup_apply (request : Request) (env : Env) (net : Upstream)
    (log : List String) :
    propertyLookup request env net log =
      match request.json with
      | .error m => (.ok (errorResponse 500 m), log)
      | .ok body =>
        match body.get "lat" with
        | .error m => (.ok (errorResponse 500 m), log)
        | .ok lat =>
          match body.get "lon" with
          | .error m => (.ok (errorResponse 500 m), log)
          | .ok lon =>
            match geocodioUrl lat lon env.GEOCODIO_API_KEY with
            | .error m => (.ok (errorResponse 500 m), log)
            | .ok url =>
              match net url with
              | .error m => (.ok (errorResponse 500 m), log ++ [url])
              | .ok data =>
                match data.get "results" with
                | .error m => (.ok (errorResponse 500 m), log ++ [url])
                | .ok results =>
                  match (if results.truthy = true then results.index 0 else .ok results) with
                  | .error m => (.ok (errorResponse 500 m), log ++ [url])
                  | .ok first =>
                    if first.truthy = true then
                      (.ok (propertyResponseOf first), log ++ [url])
                    else
                      (.ok (errorResponse 404 "No property data found"), log ++ [url]) := by
  unfold propertyLookup Eff.tryCatch propertyTry
  simp only [Eff.bind_apply, Eff.lift_apply, fetchJson_apply, Eff.pure_apply]
  rcases request.json with m | body
  · rfl
  dsimp only
  rcases body.get "lat" with m | lat
  · rfl
  dsimp only
  rcases body.get "lon" with m | lon
  · rfl
  dsimp only
  rcases geocodioUrl lat lon env.GEOCODIO_API_KEY with m | url
  · rfl
  dsimp only
  rcases net url with m | data
  · rfl
  dsimp only
  rcases data.get "results" with m | results
  · rfl
  dsimp only
  by_cases ht : results.truthy = true
  · rw [if_pos ht, if_pos ht]
    simp only [Eff.bind_apply, Eff.lift_apply]
    rcases hidx : results.index 0 with m | first
    · rfl
    dsimp only
    by_cases hf : first.truthy = true
    · rw [if_pos hf, if_pos hf]
      have hfields := fieldsOf_truthy first
      simp only [Eff.bind_apply, Eff.lift_apply, Eff.pure_apply, hidx,
        get_of_truthy first _ hf]
      have hfo : (first.member "fields").orElse (Val.obj []) = fieldsOf first := rfl
      simp only [hfo, get_of_truthy (fieldsOf first) _ hfields, jsonResponse_property]
      rfl
    · rw [if_neg hf, if_neg hf]
      rfl
  · rw [if_neg ht, if_neg ht]
    simp only [Eff.bind_apply]
    dsimp only [Pure.pure, Eff.pure]
    rw [if_neg ht, if_neg ht]
    rfl

/-- A property lookup ends in one of five ways: an error thrown before any call (by the
request body or while building the URL), a failed call, a payload whose `results` cannot be
read, a payload without a first result, or a success built from the first result. At most
one URL is fetched. -/
theorem property_cases (request : Request) (env : Env) (net : Upstream)
    (hm : request.method = "POST") (hp : request.pathname = "/property-lookup") :
    (∃ m, (request.json = .error m
          ∨ ∃ body, request.json = .ok body
              ∧ (body.get "lat" = .error m ∨ body.get "lon" = .error m
                ∨ ∃ lat lon, body.get "lat" = .ok lat ∧ body.get "lon" = .ok lon
                    ∧ geocodioUrl lat lon env.GEOCODIO_API_KEY = .error m))
        ∧ calls request env net = []
        ∧ respond request env net = some (errorResponse 500 m))
    ∨ ∃ body lat lon url, request.json = .ok body
        ∧ body.get "lat" = .ok lat ∧ body.get "lon" = .ok lon
        ∧ geocodioUrl lat lon env.GEOCODIO_API_KEY = .ok url
        ∧ calls request env net = [url]
        ∧ ((∃ m, net url = .error m
              ∧ respond request env net = some (errorResponse 500 m))
          ∨ ∃ data, net url = .ok data
              ∧ ((∃ m, data.get "results" = .error m
                    ∧ respond request env net = some (errorResponse 500 m))
                ∨ ∃ results, data.get "results" = .ok results
                    ∧ ((NoFirstResult results
                          ∧ respond request env net
                              = some (errorResponse 404 "No property data found"))
                      ∨ ∃ result, results.truthy = true ∧ results.index 0 = .ok result
                          ∧ result.truthy = true
                          ∧ respond request env net = some (propertyResponseOf result)))) := by
  have h1 : fetch request env net = propertyLookup request env net := by
    unfold fetch
    have hne : ¬ (request.pathname = "/census-lookup" ∧ request.method = "POST") := by
      rw [hp]
      exact fun h => absurd h.1 (by decide)
    rw [if_neg (by rw [hm]; decide), if_neg hne, if_pos ⟨hp, hm⟩]
  unfold respond calls
  rw [h1, propertyLookup_apply]
  rcases hj : request.json with m | body
  · exact Or.inl ⟨m, Or.inl rfl, rfl, rfl⟩
  dsimp only
  rcases hlat : body.get "lat" with m | lat
  · exact Or.inl ⟨m, Or.inr ⟨body, rfl, Or.inl hlat⟩, rfl, rfl⟩
  dsimp only
  rcases hlon : body.get "lon" with m | lon
  · exact Or.inl ⟨m, Or.inr ⟨body, rfl, Or.inr (Or.inl hlon)⟩, rfl, rfl⟩
  dsimp only
  rcases hurl : geocodioUrl lat lon env.GEOCODIO_API_KEY with m | url
  · exact Or.inl ⟨m, Or.inr ⟨body, rfl, Or.inr (Or.inr ⟨lat, lon, hlat, hlon, hurl⟩)⟩,
      rfl, rfl⟩
  dsimp only
  refine Or.inr ⟨body, lat, lon, url, rfl, hlat, hlon, hurl, ?_⟩
  rcases hnet : net url with m | data
  · exact ⟨rfl, Or.inl ⟨m, rfl, rfl⟩⟩
  dsimp only
  rcases hres : data.get "results" with m | results
  · exact ⟨rfl, Or.inr ⟨data, rfl, Or.inl ⟨m, hres, rfl⟩⟩⟩
  dsimp only
  by_cases ht : results.truthy = true
  · rw [if_pos ht]
    obtain ⟨first, hidx⟩ := index_ok_of_truthy results 0 ht
    rw [hidx]
    dsimp only
    by_cases hf : first.truthy = true
    · rw [if_pos hf]
      exact ⟨rfl, Or.inr ⟨data, rfl, Or.inr ⟨results, hres,
        Or.inr ⟨first, ht, hidx, hf, rfl⟩⟩⟩⟩
    · rw [if_neg hf]
      exact ⟨rfl, Or.inr ⟨data, rfl, Or.inr ⟨results, hres,
        Or.inl ⟨Or.inr ⟨first, hidx, by simpa using hf⟩, rfl⟩⟩⟩⟩
  · rw [if_neg ht]
    dsimp only
    rw [if_neg ht]
    exact ⟨rfl, Or.inr ⟨data, rfl, Or.inr ⟨results, hres,
      Or.inl ⟨Or.inl (by simpa using ht), rfl⟩⟩⟩⟩

theorem returned_of_single (request : Request) (env : Env) (net : Upstream) (url : String)
    (outcome : Except String Val) (hc : calls request env net = [url])
    (h : Returned request env net outcome) : net url = outcome := by
  obtain ⟨u, hu, hnet⟩ := h
  rw [hc, List.mem_singleton] at hu
  rw [← hu]
  exact hnet

theorem not_returned_of_no_calls (request : Request) (env : Env) (net : Upstream)
    (outcome : Except String Val) (hc : calls request env net = []) :
    ¬ Returned request env net outcome := by
  rintro ⟨u, hu, _⟩
  rw [hc] at hu
  cases hu

theorem returned_intro (request : Request) (env : Env) (net : Upstream) (url : String)
    (hc : calls request env net = [url]) : Returned request env net (net url) :=
  ⟨url, by rw [hc]; exact List.mem_singleton.mpr rfl, rfl⟩

theorem noFirstResult_absurd (results result : Val) (h : NoFirstResult results)
    (ht : results.truthy = true) (hidx : results.index 0 = .ok result)
    (hr : result.truthy = true) : False := by
  rcases h with h | ⟨first, hf, hfalse⟩
  · rw [h] at ht
    cases ht
  · rw [hidx] at hf
    injection hf with hf
    rw [hf, hfalse] at hr
    cases hr

theorem get_of_not_nullish (v : Val) (key : String) (hn : v ≠ .null)
    (hu : v ≠ .undefined) : v.get key = .ok (v.member key) := by
  cases v <;> first | rfl | (exact absurd rfl hn) | (exact absurd rfl hu)

theorem nullish_of_get_error (v : Val) (key m : String) (h : v.get key = .error m) :
    v = .null ∨ v = .undefined := by
  cases v <;> first | (exact Or.inl rfl) | (exact Or.inr rfl) | (cases h)

theorem not_nullish_of_get_ok (v w : Val) (key : String) (h : v.get key = .ok w) :
    ¬ (v = .null ∨ v = .undefined) := by
  rintro (hv | hv) <;> rw [hv] at h <;> cases h

theorem get_eq_member (v w : Val) (key : String) (h : v.get key = .ok w) :
    w = v.member key := by
  cases v <;> first | (injection h with h; exact h.symm) | (cases h)

/-- The `catch` of the census lookup fetches nothing. -/
theorem calls_census (request : Request) (env : Env) (net : Upstream)
    (hm : request.method = "POST") (hp : request.pathname = "/census-lookup") :
    calls request env net = (censusTry request env net []).2 := by
  have h1 : fetch request env net = censusLookup request env net := by
    unfold fetch
    rw [if_neg (by rw [hm]; decide), if_pos ⟨hp, hm⟩]
  unfold calls
  rw [h1]
  unfold censusLookup Eff.tryCatch
  rcases censusTry request env net [] with ⟨e | r, log⟩ <;> rfl

/-- Every response other than the one to an unregistered route carries the three CORS
headers. -/
theorem cors_headers_unless_not_found (request : Request) (env : Env) (net : Upstream)
    (r : Response) (hr : respond request env net = some r) (hne : r ≠ notFoundResponse) :
    ∀ h ∈ corsHeaders, h ∈ r.headers := by
  have hjson : ∀ r1 : Response,
      r1.headers = corsHeaders ++ [("Content-Type", "application/json")] →
      respond request env net = some r1 → ∀ h ∈ corsHeaders, h ∈ r.headers := by
    intro r1 hh h1 h hmem
    rw [h1] at hr
    injection hr with hr
    rw [← hr, hh]
    exact List.mem_append_left _ hmem
  by_cases ho : request.method = "OPTIONS"
  · have h1 : respond request env net = some preflightResponse := by
      unfold respond fetch
      rw [if_pos ho]
      rfl
    rw [h1] at hr
    injection hr with hr
    rw [← hr]
    exact fun h hmem => hmem
  by_cases hc : request.pathname = "/census-lookup" ∧ request.method = "POST"
  · rcases respond_census_cases request env net hc.2 hc.1 with h
      | ⟨_, _, _, _, _, _, _, _, ⟨_, h⟩ | ⟨_, _, _, _, _, _, _, h⟩⟩
    · exact hjson _ rfl h
    · exact hjson _ rfl h
    · exact hjson _ rfl h
  by_cases hpr : request.pathname = "/property-lookup" ∧ request.method = "POST"
  · rcases property_cases request env net hpr.2 hpr.1 with ⟨m, _, _, h⟩
      | ⟨body, lat, lon, url, _, _, _, _, _, ⟨m, _, h⟩ | ⟨data, _, ⟨m, _, h⟩
          | ⟨results, _, ⟨_, h⟩ | ⟨result, _, _, _, h⟩⟩⟩⟩
    · exact hjson _ rfl h
    · exact hjson _ rfl h
    · exact hjson _ rfl h
    · exact hjson _ rfl h
    · exact hjson _ rfl h
  · have h1 : respond request env net = some notFoundResponse := by
      unfold respond fetch
      rw [if_neg ho, if_neg hc, if_neg hpr]
      rfl
    rw [h1] at hr
    injection hr with hr
    exact absurd hr.symm hne

/-! ## Values without a string conversion -/

/-- A Number, a string, a boolean, `null` and `undefined` always convert to a string. -/
theorem toStr_ok_of_primitive (v : Val)
    (h : v = .undefined ∨ v = .null ∨ (∃ b, v = .bool b) ∨ (∃ x, v = .num x)
      ∨ ∃ t, v = .str t) :
    ∃ text, v.toStr = .ok text := by
  rcases h with h | h | ⟨b, h⟩ | ⟨x, h⟩ | ⟨t, h⟩
  · rw [h]
    exact ⟨_, rfl⟩
  · rw [h]
    exact ⟨_, rfl⟩
  · rw [h]
    cases b <;> exact ⟨_, rfl⟩
  · rw [h]
    exact ⟨_, rfl⟩
  · rw [h]
    exact ⟨_, rfl⟩

/-- The URL of the reverse-geocoding request is built for every pair of Numbers. -/
theorem nominatimUrl_of_numbers (x y : JsNum) :
    ∃ url, nominatimUrl (.num x) (.num y) = .ok url :=
  ⟨_, rfl⟩

/-- The URL of the property request is built for every pair of Numbers and every credential
that is a string. -/
theorem geocodioUrl_of_numbers (x y : JsNum) (key : String) :
    ∃ url, geocodioUrl (.num x) (.num y) (.str key) = .ok url :=
  ⟨_, rfl⟩

/-- A parsed object with an own member `toString` has no string conversion, alone or as an
element of an array. -/
theorem toStr_throws_on_own_toString (v : Val) :
    (Val.obj [("toString", v)]).toStr = .error cannotConvert
    ∧ (Val.arr [natNum 1, .obj [("toString", v)]]).toStr = .error cannotConvert :=
  ⟨rfl, rfl⟩

/-- A population table whose count is an object with an own member `toString`: `parseInt`
throws, and the census lookup answers with the fallback although the ZIP was read and the
population call returned JSON. -/
theorem census_fallback_when_count_has_no_string :
    respond sampleRequest sampleEnv
        (hostsAnswer (.ok (geocoded (.str "76102")))
          (.ok (popTable [.obj [("toString", natNum 1)]])))
      = some (censusResponse "Unknown" (natNum 7383))
    ∧ calls sampleRequest sampleEnv
        (hostsAnswer (.ok (geocoded (.str "76102")))
          (.ok (popTable [.obj [("toString", natNum 1)]])))
      = ["https://nominatim.openstreetmap.org/reverse?format=json&lat=32.75&lon=-97.5",
          "https://api.census.gov/data/2020/dec/pl?get=P1_001N,NAME&for=zip%20code%20tabulation%20area:76102&key=k"] :=
  ⟨rfl, rfl⟩

/-- A request whose `lat` is an object with an own member `toString`: the URL cannot be
built, the census lookup answers with the fallback and the property lookup with status 500,
and neither fetches anything. -/
theorem no_call_when_lat_has_no_string :
    respond (oddLatRequest "/census-lookup") sampleEnv
        (allAnswer (.ok (propertyPayload [propertyResult []])))
      = some (censusResponse "Unknown" (natNum 7383))
    ∧ calls (oddLatRequest "/census-lookup") sampleEnv
        (allAnswer (.ok (propertyPayload [propertyResult []]))) = []
    ∧ respond (oddLatRequest "/property-lookup") sampleEnv
        (allAnswer (.ok (propertyPayload [propertyResult []])))
      = some (errorResponse 500 cannotConvert)
    ∧ calls (oddLatRequest "/property-lookup") sampleEnv
        (allAnswer (.ok (propertyPayload [propertyResult []]))) = [] :=
  ⟨rfl, rfl, rfl, rfl⟩

/-! ## The claims on the property lookup, the routes and the calls -/

/-- C11. If the property upstream returns a payload whose `results` array is empty, the
response has status 404 and the body `error: "No property data found"`. -/
theorem property_not_found_on_empty_results (request : Request) (env : Env) (net : Upstream)
    (data : Val)
    (hm : request.method = "POST") (hp : request.pathname = "/property-lookup")
    (hret : Returned request env net (.ok data))
    (hres : data.get "results" = .ok (.arr [])) :
    respond request env net = some (errorResponse 404 "No property data found") := by
  rcases property_cases request env net hm hp with ⟨m, _, hc, _⟩
    | ⟨body, lat, lon, url, _, _, _, _, hc, hrest⟩
  · exact absurd hret (not_returned_of_no_calls _ _ _ _ hc)
  have hnet := returned_of_single _ _ _ _ _ hc hret
  rcases hrest with ⟨m, he, _⟩ | ⟨data1, hd, hrest⟩
  · rw [hnet] at he
    cases he
  rw [hnet] at hd
  injection hd with hd
  subst hd
  rcases hrest with ⟨m, he, _⟩ | ⟨results, hr, hrest⟩
  · rw [hres] at he
    cases he
  rw [hres] at hr
  injection hr with hr
  subst hr
  rcases hrest with ⟨_, h⟩ | ⟨result, _, hidx, htr, _⟩
  · exact h
  · have : result = .undefined := by
      have h0 : (Val.arr []).index 0 = .ok .undefined := rfl
      rw [h0] at hidx
      injection hidx with hidx
      exact hidx.symm
    rw [this] at htr
    cases htr

/-- Witness for C11: the upstream answers with an empty result list. -/
theorem property_not_found_on_empty_results_witness :
    respond propertyRequest sampleEnv (allAnswer (.ok (propertyPayload [])))
      = some (errorResponse 404 "No property data found") :=
  property_not_found_on_empty_results propertyRequest sampleEnv
    (allAnswer (.ok (propertyPayload []))) (propertyPayload []) rfl rfl
    (returned_intro propertyRequest sampleEnv (allAnswer (.ok (propertyPayload [])))
      "https://api.geocod.io/v1.7/reverse?q=32.75,-97.5&fields=cd&api_key=g" rfl)
    rfl

/-- C12, as stated, fails: a first result whose `fields.bedrooms` is present with the value
`0` gives `bedrooms: null`, not `0`. -/
theorem property_zero_bedrooms_become_null :
    (respond propertyRequest sampleEnv
        (allAnswer (.ok (propertyPayload
          [propertyResult [("year_built", natNum 1998), ("bedrooms", natNum 0)]])))).map
        (fun r => (r.status, r.member "yearBuilt", r.member "bedrooms"))
      = some (200, natNum 1998, .null)
    ∧ (fieldsOf (propertyResult [("year_built", natNum 1998), ("bedrooms", natNum 0)])).member
        "bedrooms" = natNum 0 :=
  ⟨rfl, rfl⟩

/-- C12, amended. For every upstream payload whose result list starts with a truthy result,
the response is the success response built from that first result only: `address` is its
`formatted_address` and `propertyType` its `fields.property_type` when these are truthy,
else `"Unknown"`; each numeric attribute is the corresponding upstream field, as serialised,
when that field is truthy, and `null` when it is absent or falsy. -/
theorem property_built_from_first_result (request : Request) (env : Env) (net : Upstream)
    (data result : Val) (more : List Val)
    (hm : request.method = "POST") (hp : request.pathname = "/property-lookup")
    (hret : Returned request env net (.ok data))
    (hres : data.get "results" = .ok (.arr (result :: more)))
    (htruthy : result.truthy = true) :
    respond request env net = some (propertyResponseOf result)
    ∧ (propertyResponseOf result).status = 200
    ∧ (propertyResponseOf result).member "address"
        = (if (result.member "formatted_address").truthy = true
            then (result.member "formatted_address").toJSON else .str "Unknown")
    ∧ (propertyResponseOf result).member "propertyType"
        = (if ((fieldsOf result).member "property_type").truthy = true
            then ((fieldsOf result).member "property_type").toJSON else .str "Unknown")
    ∧ ∀ p ∈ numericAttributes,
        (propertyResponseOf result).member p.1
          = (if ((fieldsOf result).member p.2).truthy = true
              then ((fieldsOf result).member p.2).toJSON else .null) := by
  refine ⟨?_, rfl, rfl, rfl, ?_⟩
  · rcases property_cases request env net hm hp with ⟨m, _, hc, _⟩
      | ⟨body, lat, lon, url, _, _, _, _, hc, hrest⟩
    · exact absurd hret (not_returned_of_no_calls _ _ _ _ hc)
    have hnet := returned_of_single _ _ _ _ _ hc hret
    rcases hrest with ⟨m, he, _⟩ | ⟨data1, hd, hrest⟩
    · rw [hnet] at he
      cases he
    rw [hnet] at hd
    injection hd with hd
    subst hd
    rcases hrest with ⟨m, he, _⟩ | ⟨results, hr, hrest⟩
    · rw [hres] at he
      cases he
    rw [hres] at hr
    injection hr with hr
    subst hr
    have h0 : (Val.arr (result :: more)).index 0 = .ok result := rfl
    rcases hrest with ⟨hno, _⟩ | ⟨result1, _, hidx, _, h⟩
    · exact absurd (noFirstResult_absurd _ _ hno rfl h0 htruthy) id
    · rw [h0] at hidx
      injection hidx with hidx
      subst hidx
      exact h
  · intro p hp
    simp only [numericAttributes, List.mem_cons, List.mem_singleton, List.not_mem_nil,
      or_false] at hp
    rcases hp with h | h | h | h | h | h | h <;> subst h <;> rfl

/-- Witness for C12, amended: `year_built = 1998` and no `bedrooms` give
`yearBuilt: 1998, bedrooms: null`. -/
theorem property_built_from_first_result_witness :
    respond propertyRequest sampleEnv
        (allAnswer (.ok (propertyPayload [propertyResult [("year_built", natNum 1998)]])))
      = some (propertyResponseOf (propertyResult [("year_built", natNum 1998)]))
    ∧ (propertyResponseOf (propertyResult [("year_built", natNum 1998)])).member "yearBuilt"
        = natNum 1998
    ∧ (propertyResponseOf (propertyResult [("year_built", natNum 1998)])).member "bedrooms"
        = .null :=
  ⟨(property_built_from_first_result propertyRequest sampleEnv
      (allAnswer (.ok (propertyPayload [propertyResult [("year_built", natNum 1998)]])))
      (propertyPayload [propertyResult [("year_built", natNum 1998)]])
      (propertyResult [("year_built", natNum 1998)]) [] rfl rfl
      (returned_intro propertyRequest sampleEnv
        (allAnswer (.ok (propertyPayload [propertyResult [("year_built", natNum 1998)]])))
        "https://api.geocod.io/v1.7/reverse?q=32.75,-97.5&fields=cd&api_key=g" rfl)
      rfl rfl).1, rfl, rfl⟩

/-- C13. Every status-200 response of the property lookup has a body with exactly the nine
keys `address`, `propertyType`, `yearBuilt`, `bedrooms`, `bathrooms`, `sqft`, `lotSize`,
`assessedValue`, `marketValue`, whatever the upstream result contained. -/
theorem property_success_has_nine_keys (request : Request) (env : Env) (net : Upstream)
    (r : Response)
    (hm : request.method = "POST") (hp : request.pathname = "/property-lookup")
    (hr : respond request env net = some r) (h200 : r.status = 200) :
    r.keys = propertyKeys := by
  have herr : ∀ st m, respond request env net = some (errorResponse st m) → st ≠ 200 →
      r.keys = propertyKeys := by
    intro st m h hst
    rw [h] at hr
    injection hr with hr
    rw [← hr] at h200
    exact absurd h200 hst
  rcases property_cases request env net hm hp with ⟨m, _, _, h⟩
    | ⟨body, lat, lon, url, _, _, _, _, _, ⟨m, _, h⟩ | ⟨data, _, ⟨m, _, h⟩
        | ⟨results, _, ⟨_, h⟩ | ⟨result, _, _, _, h⟩⟩⟩⟩
  · exact herr _ _ h (by decide)
  · exact herr _ _ h (by decide)
  · exact herr _ _ h (by decide)
  · exact herr _ _ h (by decide)
  · rw [h] at hr
    injection hr with hr
    rw [← hr]
    rfl

/-- Witness for C13: a result without a `fields` object. -/
theorem property_success_has_nine_keys_witness :
    (propertyResponseOf (.obj [("formatted_address", .str "100 Main St")])).keys
      = propertyKeys :=
  property_success_has_nine_keys propertyRequest sampleEnv
    (allAnswer (.ok (propertyPayload [.obj [("formatted_address", .str "100 Main St")]])))
    (propertyResponseOf (.obj [("formatted_address", .str "100 Main St")]))
    rfl rfl rfl rfl

/-- C14. If the request body cannot be parsed, or the upstream call fails (network error or
a body that is not JSON), the response has status 500 and the body `error: m`, where `m`
is the message of that failure. -/
theorem property_failure_is_500 (request : Request) (env : Env) (net : Upstream)
    (m : String)
    (hm : request.method = "POST") (hp : request.pathname = "/property-lookup")
    (hfail : request.json = .error m ∨ Returned request env net (.error m)) :
    respond request env net = some (errorResponse 500 m) := by
  rcases property_cases request env net hm hp with ⟨m1, hthrow, hc, h⟩
    | ⟨body, lat, lon, url, hb, _, _, _, hc, hrest⟩
  · rcases hfail with hj | hret
    · rcases hthrow with h1 | ⟨body, h1, _⟩
      · rw [hj] at h1
        injection h1 with h1
        rw [h1]
        exact h
      · rw [hj] at h1
        cases h1
    · exact absurd hret (not_returned_of_no_calls _ _ _ _ hc)
  · rcases hfail with hj | hret
    · rw [hj] at hb
      cases hb
    · have hnet := returned_of_single _ _ _ _ _ hc hret
      rcases hrest with ⟨m1, he, h⟩ | ⟨data, hd, _⟩
      · rw [hnet] at he
        injection he with he
        rw [he]
        exact h
      · rw [hnet] at hd
        cases hd

/-- Witness for C14: the upstream is unreachable. -/
theorem property_failure_is_500_witness :
    respond propertyRequest sampleEnv (allAnswer (.error "fetch failed"))
      = some (errorResponse 500 "fetch failed") :=
  property_failure_is_500 propertyRequest sampleEnv (allAnswer (.error "fetch failed"))
    "fetch failed" rfl rfl
    (Or.inr (returned_intro propertyRequest sampleEnv (allAnswer (.error "fetch failed"))
      "https://api.geocod.io/v1.7/reverse?q=32.75,-97.5&fields=cd&api_key=g" rfl))

/-- C15, as stated, fails: the error document of a rejected upstream request, an object
with no `results` array, is answered with status 404, not 500. -/
theorem property_malformed_payload_is_404 :
    respond propertyRequest sampleEnv
        (allAnswer (.ok (.obj [("error", .str "Invalid API key")])))
      = some (errorResponse 404 "No property data found")
    ∧ (Val.obj [("error", .str "Invalid API key")]).member "results" = .undefined :=
  ⟨rfl, rfl⟩

/-- C15, amended. The property lookup answers 404 exactly when the upstream returned a JSON
payload other than `null` that has no truthy first result (an empty result list, but also
an object without `results`); it answers 500 exactly when the request body cannot be
parsed or is `null`, the URL of the call cannot be built (`lat`, `lon` or the credential
has no string conversion), the upstream call fails, or the payload is `null`; both carry a
message. The status of the upstream response is never read. -/
theorem property_status_by_outcome (request : Request) (env : Env) (net : Upstream)
    (r : Response)
    (hm : request.method = "POST") (hp : request.pathname = "/property-lookup")
    (hr : respond request env net = some r) :
    (r.status = 404 ↔ ∃ data results, Returned request env net (.ok data)
        ∧ data.get "results" = .ok results ∧ NoFirstResult results)
    ∧ (r.status = 500 ↔ (∃ m, request.json = .error m)
        ∨ (∃ body, request.json = .ok body ∧ (body = .null ∨ body = .undefined))
        ∨ (∃ body m, request.json = .ok body
            ∧ geocodioUrl (body.member "lat") (body.member "lon") env.GEOCODIO_API_KEY
              = .error m)
        ∨ (∃ m, Returned request env net (.error m))
        ∨ ∃ data, Returned request env net (.ok data) ∧ (data = .null ∨ data = .undefined))
    ∧ (r.status ≠ 200 → ∃ m, r.body = .json (.obj [("error", .str m)])) := by
  have h54 : ¬ (500 : Nat) = 404 := by decide
  have h24 : ¬ (200 : Nat) = 404 := by decide
  have h25 : ¬ (200 : Nat) = 500 := by decide
  rcases property_cases request env net hm hp with ⟨m, hthrow, hc, h⟩
    | ⟨body, lat, lon, url, hb, hlat, hlon, hurl, hc, hrest⟩
  · rw [h] at hr
    injection hr with hr
    subst hr
    refine ⟨⟨fun h4 => absurd h4 h54, ?_⟩, ⟨fun _ => ?_, fun _ => rfl⟩,
      fun _ => ⟨m, rfl⟩⟩
    · rintro ⟨data, results, hret, _⟩
      exact absurd hret (not_returned_of_no_calls _ _ _ _ hc)
    · rcases hthrow with h1 | ⟨body, h1, h2 | h2 | ⟨lat, lon, hlat, hlon, hurl⟩⟩
      · exact Or.inl ⟨m, h1⟩
      · exact Or.inr (Or.inl ⟨body, h1, nullish_of_get_error _ _ _ h2⟩)
      · exact Or.inr (Or.inl ⟨body, h1, nullish_of_get_error _ _ _ h2⟩)
      · refine Or.inr (Or.inr (Or.inl ⟨body, m, h1, ?_⟩))
        rw [← get_eq_member _ _ _ hlat, ← get_eq_member _ _ _ hlon]
        exact hurl
  have hnobody : ¬ ((∃ m, request.json = .error m)
      ∨ (∃ body, request.json = .ok body ∧ (body = .null ∨ body = .undefined))
      ∨ (∃ body m, request.json = .ok body
          ∧ geocodioUrl (body.member "lat") (body.member "lon") env.GEOCODIO_API_KEY
            = .error m)) := by
    rintro (⟨m, h1⟩ | ⟨body1, h1, h2⟩ | ⟨body1, m, h1, h2⟩)
    · rw [hb] at h1
      cases h1
    · rw [hb] at h1
      injection h1 with h1
      subst h1
      exact not_nullish_of_get_ok _ _ _ hlat h2
    · rw [hb] at h1
      injection h1 with h1
      subst h1
      rw [← get_eq_member _ _ _ hlat, ← get_eq_member _ _ _ hlon, hurl] at h2
      cases h2
  rcases hrest with ⟨m, he, h⟩ | ⟨data, hd, hrest⟩
  · rw [h] at hr
    injection hr with hr
    subst hr
    refine ⟨⟨fun h4 => absurd h4 h54, ?_⟩, ⟨fun _ => ?_, fun _ => rfl⟩,
      fun _ => ⟨m, rfl⟩⟩
    · rintro ⟨data, results, hret, _⟩
      have := returned_of_single _ _ _ _ _ hc hret
      rw [he] at this
      cases this
    · exact Or.inr (Or.inr (Or.inr (Or.inl
        ⟨m, by rw [← he]; exact returned_intro _ _ _ _ hc⟩)))
  have hret0 : Returned request env net (.ok data) := by
    rw [← hd]
    exact returned_intro _ _ _ _ hc
  have hsame : ∀ data1, Returned request env net (.ok data1) → data1 = data := by
    intro data1 h1
    have := returned_of_single _ _ _ _ _ hc h1
    rw [hd] at this
    injection this with this
    exact this.symm
  have hnoerr : ¬ ∃ m, Returned request env net (.error m) := by
    rintro ⟨m, h1⟩
    have := returned_of_single _ _ _ _ _ hc h1
    rw [hd] at this
    cases this
  rcases hrest with ⟨m, he, h⟩ | ⟨results, hres, hrest⟩
  · rw [h] at hr
    injection hr with hr
    subst hr
    refine ⟨⟨fun h4 => absurd h4 h54, ?_⟩, ⟨fun _ => ?_, fun _ => rfl⟩,
      fun _ => ⟨m, rfl⟩⟩
    · rintro ⟨data1, results, hret, hget, _⟩
      rw [hsame data1 hret, he] at hget
      cases hget
    · exact Or.inr (Or.inr (Or.inr (Or.inr
        ⟨data, hret0, nullish_of_get_error _ _ _ he⟩)))
  have hnonull : ¬ ∃ data1, Returned request env net (.ok data1)
      ∧ (data1 = .null ∨ data1 = .undefined) := by
    rintro ⟨data1, h1, h2⟩
    rw [hsame data1 h1] at h2
    exact not_nullish_of_get_ok _ _ _ hres h2
  have hno500 : ¬ ((∃ m, request.json = .error m)
      ∨ (∃ body, request.json = .ok body ∧ (body = .null ∨ body = .undefined))
      ∨ (∃ body m, request.json = .ok body
          ∧ geocodioUrl (body.member "lat") (body.member "lon") env.GEOCODIO_API_KEY
            = .error m)
      ∨ (∃ m, Returned request env net (.error m))
      ∨ ∃ data, Returned request env net (.ok data) ∧ (data = .null ∨ data = .undefined)) := by
    rintro (h1 | h1 | h1 | h1 | h1)
    · exact hnobody (Or.inl h1)
    · exact hnobody (Or.inr (Or.inl h1))
    · exact hnobody (Or.inr (Or.inr h1))
    · exact hnoerr h1
    · exact hnonull h1
  rcases hrest with ⟨hno, h⟩ | ⟨result, ht, hidx, htr, h⟩
  · rw [h] at hr
    injection hr with hr
    subst hr
    exact ⟨⟨fun _ => ⟨data, results, hret0, hres, hno⟩, fun _ => rfl⟩,
      ⟨fun h5 => absurd h5 (by decide), fun h5 => absurd h5 hno500⟩,
      fun _ => ⟨_, rfl⟩⟩
  · rw [h] at hr
    injection hr with hr
    subst hr
    refine ⟨⟨fun h4 => absurd h4 h24, ?_⟩,
      ⟨fun h5 => absurd h5 h25, fun h5 => absurd h5 hno500⟩,
      fun h2 => absurd rfl h2⟩
    rintro ⟨data1, results1, hret, hget, hno⟩
    rw [hsame data1 hret, hres] at hget
    injection hget with hget
    subst hget
    exact absurd (noFirstResult_absurd _ _ hno ht hidx htr) id

/-- Witness for C15, amended: a payload without `results` is answered with 404. -/
theorem property_status_by_outcome_witness :
    ((errorResponse 404 "No property data found").status = 404 ↔
      ∃ data results,
        Returned propertyRequest sampleEnv
          (allAnswer (.ok (.obj [("error", .str "Invalid API key")]))) (.ok data)
        ∧ data.get "results" = .ok results ∧ NoFirstResult results) :=
  (property_status_by_outcome propertyRequest sampleEnv
    (allAnswer (.ok (.obj [("error", .str "Invalid API key")])))
    (errorResponse 404 "No property data found") rfl rfl rfl).1

/-- C16. Every response of the property lookup has one of two shapes: status 404 or 500
with a body whose only member is an `error` string (none of the nine attributes), or status
200 with a body that has the nine attributes and no `error`; the status is 200 exactly when
the body has no `error` member. -/
theorem property_body_shapes (request : Request) (env : Env) (net : Upstream)
    (hm : request.method = "POST") (hp : request.pathname = "/property-lookup") :
    ∃ r, respond request env net = some r
      ∧ ((∃ m, (r.status = 404 ∨ r.status = 500)
            ∧ r.body = .json (.obj [("error", .str m)])
            ∧ ∀ k ∈ propertyKeys, k ∉ r.keys)
          ∨ (r.status = 200 ∧ r.keys = propertyKeys ∧ "error" ∉ r.keys))
      ∧ (r.status = 200 ↔ "error" ∉ r.keys) := by
  have herr : ∀ st m, (st = 404 ∨ st = 500) →
      respond request env net = some (errorResponse st m) →
      ∃ r, respond request env net = some r
      ∧ ((∃ m, (r.status = 404 ∨ r.status = 500)
            ∧ r.body = .json (.obj [("error", .str m)])
            ∧ ∀ k ∈ propertyKeys, k ∉ r.keys)
          ∨ (r.status = 200 ∧ r.keys = propertyKeys ∧ "error" ∉ r.keys))
      ∧ (r.status = 200 ↔ "error" ∉ r.keys) := by
    intro st m hst h
    refine ⟨_, h, Or.inl ⟨m, hst, rfl, ?_⟩, ?_⟩
    · show ∀ k ∈ propertyKeys, k ∉ ["error"]
      decide
    · show st = 200 ↔ "error" ∉ ["error"]
      constructor
      · intro h2
        rcases hst with h4 | h5 <;> omega
      · intro h2
        exact absurd (List.mem_singleton.mpr rfl) h2
  rcases property_cases request env net hm hp with ⟨m, _, _, h⟩
    | ⟨body, lat, lon, url, _, _, _, _, _, ⟨m, _, h⟩ | ⟨data, _, ⟨m, _, h⟩
        | ⟨results, _, ⟨_, h⟩ | ⟨result, _, _, _, h⟩⟩⟩⟩
  · exact herr _ _ (Or.inr rfl) h
  · exact herr _ _ (Or.inr rfl) h
  · exact herr _ _ (Or.inr rfl) h
  · exact herr _ _ (Or.inl rfl) h
  · have hk : (propertyResponseOf result).keys = propertyKeys := rfl
    have hne : "error" ∉ (propertyResponseOf result).keys := by
      rw [hk]
      decide
    exact ⟨_, h, Or.inr ⟨rfl, hk, hne⟩, ⟨fun _ => hne, fun _ => rfl⟩⟩

/-- Witness for C16: a request whose body cannot be parsed. -/
theorem property_body_shapes_witness :
    ∃ r, respond { method := "POST", pathname := "/property-lookup", json := .error "bad" }
          sampleEnv (allAnswer (.error "not called")) = some r
      ∧ ((∃ m, (r.status = 404 ∨ r.status = 500)
            ∧ r.body = .json (.obj [("error", .str m)])
            ∧ ∀ k ∈ propertyKeys, k ∉ r.keys)
          ∨ (r.status = 200 ∧ r.keys = propertyKeys ∧ "error" ∉ r.keys))
      ∧ (r.status = 200 ↔ "error" ∉ r.keys) :=
  property_body_shapes { method := "POST", pathname := "/property-lookup", json := .error "bad" }
    sampleEnv (allAnswer (.error "not called")) rfl rfl

/-- C17. Code evaluation at the failing input: a GET to `/foo` is answered with status
404 and the plain body `Not Found`, built with no headers: none of the three CORS headers
that every other response carries is there. -/
theorem not_found_has_no_cors_headers :
    respond { method := "GET", pathname := "/foo", json := .error "no body" } sampleEnv
        (allAnswer (.error "not called"))
      = some { status := 404, headers := [], body := .text "Not Found" }
    ∧ ∀ h ∈ corsHeaders, h ∉ notFoundResponse.headers :=
  ⟨rfl, fun _ _ hmem => by cases hmem⟩

/-- C18. An OPTIONS request to any path is answered with status 200, no body and the three
CORS headers, and fetches nothing. -/
theorem options_is_preflight (request : Request) (env : Env) (net : Upstream)
    (hm : request.method = "OPTIONS") :
    respond request env net = some { status := 200, headers := corsHeaders, body := .empty }
    ∧ calls request env net = [] := by
  unfold respond calls fetch
  rw [if_pos hm]
  exact ⟨rfl, rfl⟩

/-- Witness for C18: an OPTIONS request to the property route. -/
theorem options_is_preflight_witness :
    respond { method := "OPTIONS", pathname := "/property-lookup", json := .error "no body" }
        sampleEnv (allAnswer (.ok (propertyPayload [])))
      = some { status := 200, headers := corsHeaders, body := .empty }
    ∧ calls { method := "OPTIONS", pathname := "/property-lookup", json := .error "no body" }
        sampleEnv (allAnswer (.ok (propertyPayload []))) = [] :=
  options_is_preflight
    { method := "OPTIONS", pathname := "/property-lookup", json := .error "no body" }
    sampleEnv (allAnswer (.ok (propertyPayload []))) rfl

/-- C19. The response is status 404 with the plain body `Not Found` exactly when the method
is not OPTIONS and the request is neither a POST to `/census-lookup` nor a POST to
`/property-lookup`. -/
theorem not_found_iff_unregistered (request : Request) (env : Env) (net : Upstream) :
    (∃ r, respond request env net = some r ∧ r.status = 404 ∧ r.body = .text "Not Found")
    ↔ (request.method ≠ "OPTIONS"
        ∧ ¬ (request.pathname = "/census-lookup" ∧ request.method = "POST")
        ∧ ¬ (request.pathname = "/property-lookup" ∧ request.method = "POST")) := by
  constructor
  · rintro ⟨r, hr, hst, hb⟩
    have hjson : ∀ r1 : Response, (∃ doc, r1.body = .json doc) →
        respond request env net = some r1 → False := by
      rintro r1 ⟨doc, hdoc⟩ h1
      rw [h1] at hr
      injection hr with hr
      rw [← hr, hdoc] at hb
      cases hb
    refine ⟨fun ho => ?_, fun hc => ?_, fun hpr => ?_⟩
    · have h1 : respond request env net = some preflightResponse := by
        unfold respond fetch
        rw [if_pos ho]
        rfl
      rw [h1] at hr
      injection hr with hr
      rw [← hr] at hb
      cases hb
    · rcases respond_census_cases request env net hc.2 hc.1 with h
        | ⟨_, _, _, _, _, _, _, _, ⟨_, h⟩ | ⟨_, _, _, _, _, _, _, h⟩⟩
      · exact hjson _ ⟨_, rfl⟩ h
      · exact hjson _ ⟨_, rfl⟩ h
      · exact hjson _ ⟨_, rfl⟩ h
    · rcases property_cases request env net hpr.2 hpr.1 with ⟨m, _, _, h⟩
        | ⟨body, lat, lon, url, _, _, _, _, _, ⟨m, _, h⟩ | ⟨data, _, ⟨m, _, h⟩
            | ⟨results, _, ⟨_, h⟩ | ⟨result, _, _, _, h⟩⟩⟩⟩
      · exact hjson _ ⟨_, rfl⟩ h
      · exact hjson _ ⟨_, rfl⟩ h
      · exact hjson _ ⟨_, rfl⟩ h
      · exact hjson _ ⟨_, rfl⟩ h
      · exact hjson _ ⟨_, rfl⟩ h
  · rintro ⟨ho, hc, hpr⟩
    refine ⟨notFoundResponse, ?_, rfl, rfl⟩
    unfold respond fetch
    rw [if_neg ho, if_neg hc, if_neg hpr]
    rfl

/-- C20, as stated, fails: a property lookup whose request body is the parseable JSON text
`null` throws on reading `lat` and makes no upstream call. -/
theorem property_null_body_makes_no_call :
    calls { method := "POST", pathname := "/property-lookup", json := .ok .null } sampleEnv
        (allAnswer (.ok (propertyPayload [propertyResult []]))) = []
    ∧ (respond { method := "POST", pathname := "/property-lookup", json := .ok .null }
        sampleEnv (allAnswer (.ok (propertyPayload [propertyResult []])))).map
          (fun r => r.status) = some 500 :=
  ⟨rfl, rfl⟩

/-- C20, amended. In a census lookup whose geocoding call returned JSON, the URLs fetched
are the geocoding URL, followed by the population URL keyed by the extracted ZIP exactly
when a ZIP other than `"Unknown"` was extracted and `CENSUS_API_KEY` is configured and has
a string conversion, and nothing else; a property lookup whose request body parses to a
JSON value other than `null`, and whose `lat`, `lon` and credential have a string
conversion, fetches exactly one URL. -/
theorem upstream_calls (censusRequest propertyReq : Request) (env : Env) (net : Upstream)
    (body lat lon nominatimData pbody : Val) (url purl : String)
    (hcm : censusRequest.method = "POST") (hcp : censusRequest.pathname = "/census-lookup")
    (hbody : censusRequest.json = .ok body)
    (hlat : body.get "lat" = .ok lat) (hlon : body.get "lon" = .ok lon)
    (hurl : nominatimUrl lat lon = .ok url)
    (hgeo : net url = .ok nominatimData)
    (hpm : propertyReq.method = "POST") (hpp : propertyReq.pathname = "/property-lookup")
    (hpbody : propertyReq.json = .ok pbody)
    (hnn : pbody ≠ .null) (hnu : pbody ≠ .undefined)
    (hpurl : geocodioUrl (pbody.member "lat") (pbody.member "lon") env.GEOCODIO_API_KEY
      = .ok purl) :
    calls censusRequest env net
        = url ::
          (match zipCodeOf nominatimData with
            | .ok zipCode =>
              if zipCode ≠ "Unknown" ∧ env.CENSUS_API_KEY.truthy = true
              then
                match popUrl zipCode env.CENSUS_API_KEY with
                | .ok url2 => [url2]
                | .error _ => []
              else []
            | .error _ => [])
    ∧ calls propertyReq env net = [purl] := by
  constructor
  · rw [calls_census censusRequest env net hcm hcp, censusTry_apply]
    simp only [hbody, hlat, hlon, hurl, hgeo]
    rcases zipCodeOf nominatimData with e | zipCode
    · rfl
    dsimp only
    by_cases hc : zipCode ≠ "Unknown" ∧ env.CENSUS_API_KEY.truthy = true
    · rw [if_pos hc, if_pos hc]
      rcases popUrl zipCode env.CENSUS_API_KEY with e | url2
      · rfl
      dsimp only
      rcases net url2 with e | popData
      · rfl
      dsimp only
      rcases populationOf popData with e | population <;> rfl
    · rw [if_neg hc, if_neg hc]
      rfl
  · have hl := get_of_not_nullish pbody "lat" hnn hnu
    have hlo := get_of_not_nullish pbody "lon" hnn hnu
    rcases property_cases propertyReq env net hpm hpp with ⟨m, hthrow, _, _⟩
      | ⟨body1, lat1, lon1, url1, hb, hlat1, hlon1, hurl1, hc, _⟩
    · rcases hthrow with h1 | ⟨body1, h1, h2 | h2 | ⟨lat1, lon1, hlat1, hlon1, hurl1⟩⟩
      · rw [hpbody] at h1
        cases h1
      · rw [hpbody] at h1
        injection h1 with h1
        subst h1
        rw [hl] at h2
        cases h2
      · rw [hpbody] at h1
        injection h1 with h1
        subst h1
        rw [hlo] at h2
        cases h2
      · rw [hpbody] at h1
        injection h1 with h1
        subst h1
        rw [get_eq_member _ _ _ hlat1, get_eq_member _ _ _ hlon1, hpurl] at hurl1
        cases hurl1
    · rw [hpbody] at hb
      injection hb with hb
      subst hb
      rw [get_eq_member _ _ _ hlat1, get_eq_member _ _ _ hlon1, hpurl] at hurl1
      injection hurl1 with hurl1
      rw [hc, hurl1]

/-- Witness for C20, amended: a census lookup that fetches both URLs, and a property
lookup that fetches one. -/
theorem upstream_calls_witness :
    calls sampleRequest sampleEnv
        (hostsAnswer (.ok (geocoded (.str "76102-1234")))
          (.ok (popTable [.str "41500", .str "ZCTA5 76102", .str "76102"])))
      = "https://nominatim.openstreetmap.org/reverse?format=json&lat=32.75&lon=-97.5" ::
          (match zipCodeOf (geocoded (.str "76102-1234")) with
            | .ok zipCode =>
              if zipCode ≠ "Unknown" ∧ sampleEnv.CENSUS_API_KEY.truthy = true
              then
                match popUrl zipCode sampleEnv.CENSUS_API_KEY with
                | .ok url2 => [url2]
                | .error _ => []
              else []
            | .error _ => [])
    ∧ calls propertyRequest sampleEnv
        (hostsAnswer (.ok (geocoded (.str "76102-1234")))
          (.ok (popTable [.str "41500", .str "ZCTA5 76102", .str "76102"])))
      = ["https://api.geocod.io/v1.7/reverse?q=32.75,-97.5&fields=cd&api_key=g"] :=
  upstream_calls sampleRequest propertyRequest sampleEnv
    (hostsAnswer (.ok (geocoded (.str "76102-1234")))
      (.ok (popTable [.str "41500", .str "ZCTA5 76102", .str "76102"])))
    (.obj [("lat", .num (.fin false 131 2)), ("lon", .num (.fin true 195 1))])
    (.num (.fin false 131 2)) (.num (.fin true 195 1))
    (geocoded (.str "76102-1234"))
    (.obj [("lat", .num (.fin false 131 2)), ("lon", .num (.fin true 195 1))])
    "https://nominatim.openstreetmap.org/reverse?format=json&lat=32.75&lon=-97.5"
    "https://api.geocod.io/v1.7/reverse?q=32.75,-97.5&fields=cd&api_key=g"
    rfl rfl rfl rfl rfl rfl rfl rfl rfl rfl (fun h => by cases h) (fun h => by cases h) rfl

/-! ## Facts about the map client -/

/-- What `getZipAndPopulation` returns when the broker answers with a parsed body whose
members can be read. -/
theorem getZipAndPopulation_ok (lat lon : Val) (broker : Broker) (data zip population : Val)
    (hdata : broker (Val.obj [("lat", lat), ("lon", lon)]).toJSON = .ok data)
    (hz : data.get "zip" = .ok zip) (hp : data.get "population" = .ok population) :
    getZipAndPopulation lat lon broker
      = { zip := zip.orElse (.str "Unknown"), population := population.orElse (.num lit7383) } := by
  unfold getZipAndPopulation getZipAndPopulationTry
  simp only [bind, Except.bind, hdata, hz, hp]
  rfl

/-- What `getZipAndPopulation` returns when the request or the parsing of the body fails. -/
theorem getZipAndPopulation_error (lat lon : Val) (broker : Broker) (message : String)
    (hfail : broker (Val.obj [("lat", lat), ("lon", lon)]).toJSON = .error message) :
    getZipAndPopulation lat lon broker
      = { zip := .str "Unknown", population := .num lit7383 } := by
  unfold getZipAndPopulation getZipAndPopulationTry
  simp only [bind, Except.bind, hfail]

/-- A body that parses to `null` also ends in the constant: reading `data.zip` throws. -/
theorem getZipAndPopulation_null (lat lon : Val) (broker : Broker)
    (hdata : broker (Val.obj [("lat", lat), ("lon", lon)]).toJSON = .ok .null) :
    getZipAndPopulation lat lon broker
      = { zip := .str "Unknown", population := .num lit7383 } := by
  unfold getZipAndPopulation getZipAndPopulationTry
  simp only [bind, Except.bind, hdata]
  rfl

/-- A string built from characters is empty exactly when there are none. -/
theorem mk_eq_empty_iff (l : List Char) : String.mk l = "" ↔ l = [] := by
  constructor
  · intro h
    exact congrArg String.data h
  · intro h
    rw [h]

/-- The ZIP read from a payload whose postal code is the string `s`, in the words of the
specification. -/
theorem zipCodeOf_postcode (nominatimData address : Val) (s : String)
    (ha : nominatimData.get "address" = .ok address)
    (hpc : address.get "postcode" = .ok (.str s)) :
    zipCodeOf nominatimData = .ok (zipOfPostcode s) := by
  rw [zipCodeOf_str nominatimData address s ha hpc]
  unfold zipOfPostcode beforeFirstHyphen
  by_cases h : s.data.takeWhile (fun c => c != '-') = []
  · rw [if_pos h, if_pos ((mk_eq_empty_iff _).2 h)]
  · rw [if_neg h, if_neg (fun h1 => h ((mk_eq_empty_iff _).1 h1))]

/-- Rounding to a double never gives `NaN`. -/
theorem roundToDouble_ne_nan (neg : Bool) (a b : Nat) : roundToDouble neg a b ≠ .nan := by
  unfold roundToDouble
  dsimp only
  split_ifs <;> exact fun h => JsNum.noConfusion h

/-- Dividing a Number other than `NaN` by one hundred never gives `NaN`. -/
theorem div_hundred_ne_nan (x : JsNum) (hx : x ≠ .nan) :
    x.div (.fin false 100 0) ≠ .nan := by
  cases x with
  | nan => exact absurd rfl hx
  | inf s => exact fun h => JsNum.noConfusion h
  | fin s m k =>
    show (if 100 = 0 then (if m = 0 then JsNum.nan else JsNum.inf (xor s false))
      else roundToDouble (xor s false) (m * 2 ^ 0) (100 * 2 ^ k)) ≠ JsNum.nan
    rw [if_neg (by decide)]
    exact roundToDouble_ne_nan _ _ _

/-- The size of a storm report is never `NaN`, whatever `parseFloat` returned. -/
theorem actualSize_ne_nan (parsed : JsNum) : actualSize parsed ≠ .nan := by
  unfold actualSize
  by_cases hf : parsed.falsy = true
  · rw [if_pos hf]
    exact div_hundred_ne_nan _ (fun h => JsNum.noConfusion h)
  · rw [if_neg hf]
    refine div_hundred_ne_nan _ ?_
    intro h
    rw [h] at hf
    exact hf rfl

/-- The comparison `>=` of a finite Number with a non-negative finite literal is the
comparison of their values. -/
theorem ge_fin_iff (s : Bool) (m k n j : Nat) :
    (JsNum.fin s m k).ge (.fin false n j) = true ↔ (n : ℚ) / 2 ^ j ≤ JsNum.toRat s m k := by
  unfold JsNum.ge JsNum.toRat
  rw [decide_eq_true_iff, div_le_div_iff₀ (by positivity) (by positivity)]
  have hn : JsNum.signed false n = (n : Int) := rfl
  rw [hn]
  constructor
  · intro h
    exact_mod_cast h
  · intro h
    exact_mod_cast h

/-- The comparison `size >= literal` holds exactly when the size is at least the value of the
literal. -/
theorem ge_iff_sizeAtLeast (size : JsNum) (n j : Nat) :
    size.ge (.fin false n j) = true ↔ sizeAtLeast size ((n : ℚ) / 2 ^ j) := by
  cases size with
  | nan => simp [JsNum.ge, sizeAtLeast]
  | inf neg => cases neg <;> simp [JsNum.ge, sizeAtLeast]
  | fin s m k => exact ge_fin_iff s m k n j

/-- For a size other than `NaN`, the comparison `size >= literal` fails exactly when the size
is below the value of the literal. -/
theorem not_ge_iff_sizeBelow (size : JsNum) (hsize : size ≠ .nan) (n j : Nat) :
    size.ge (.fin false n j) = false ↔ sizeBelow size ((n : ℚ) / 2 ^ j) := by
  cases size with
  | nan => exact absurd rfl hsize
  | inf neg => cases neg <;> simp [JsNum.ge, sizeBelow]
  | fin s m k =>
    rw [← Bool.not_eq_true, ge_fin_iff]
    exact not_le

/-- A size below a bound is below every larger bound. -/
theorem sizeBelow_mono (size : JsNum) (q r : ℚ) (hqr : q ≤ r) (h : sizeBelow size q) :
    sizeBelow size r := by
  cases size with
  | nan => exact h
  | inf neg => exact h
  | fin s m k => exact lt_of_lt_of_le h hqr

/-! ## The claims on the map client and on the ZIP -/

/-- C21, as stated, fails: the broker answers `{ zip: "76102", population: 0 }` and the
client returns the population `7383`, not `0`. -/
theorem client_replaces_zero_population :
    (getZipAndPopulation (.num (.fin false 131 2)) (.num (.fin true 195 1))
        (fun _ => .ok (.obj [("zip", .str "76102"), ("population", natNum 0)]))).population
      = natNum 7383
    ∧ natNum 7383 ≠ natNum 0 :=
  ⟨rfl, fun h => by simp [natNum] at h⟩

/-- C21, amended. When the broker answers with a JSON body whose members `zip` and
`population` can be read, `getZipAndPopulation` returns the `zip` if it is truthy and
`"Unknown"` otherwise, and the `population` if it is truthy and `7383` otherwise; when the
request or the parsing of the body fails, it returns `{ zip: "Unknown", population: 7383 }`. -/
theorem client_zip_and_population (lat lon : Val) (broker failing : Broker)
    (data zip population : Val) (message : String)
    (hdata : broker (Val.obj [("lat", lat), ("lon", lon)]).toJSON = .ok data)
    (hz : data.get "zip" = .ok zip) (hp : data.get "population" = .ok population)
    (hfail : failing (Val.obj [("lat", lat), ("lon", lon)]).toJSON = .error message) :
    getZipAndPopulation lat lon broker
        = { zip := if zip.truthy = true then zip else .str "Unknown"
            population := if population.truthy = true then population else .num lit7383 }
    ∧ getZipAndPopulation lat lon failing
        = { zip := .str "Unknown", population := .num lit7383 } :=
  ⟨getZipAndPopulation_ok lat lon broker data zip population hdata hz hp,
    getZipAndPopulation_error lat lon failing message hfail⟩

/-- Witness for C21, amended: the broker answers `{ zip: "76102", population: 12450 }`; the
failing broker throws. -/
theorem client_zip_and_population_witness :
    getZipAndPopulation (.num (.fin false 131 2)) (.num (.fin true 195 1))
        (fun _ => .ok (.obj [("zip", .str "76102"), ("population", natNum 12450)]))
        = { zip := if (Val.str "76102").truthy = true then .str "76102" else .str "Unknown"
            population :=
              if (natNum 12450).truthy = true then natNum 12450 else .num lit7383 }
    ∧ getZipAndPopulation (.num (.fin false 131 2)) (.num (.fin true 195 1))
        (fun _ => .error "Failed to fetch")
        = { zip := .str "Unknown", population := .num lit7383 } :=
  client_zip_and_population (.num (.fin false 131 2)) (.num (.fin true 195 1))
    (fun _ => .ok (.obj [("zip", .str "76102"), ("population", natNum 12450)]))
    (fun _ => .error "Failed to fetch")
    (.obj [("zip", .str "76102"), ("population", natNum 12450)]) (.str "76102") (natNum 12450)
    "Failed to fetch" rfl rfl rfl rfl

/-- C22, as stated, fails: the geocoder returns the postal code `"SW1A 1AA"`, the ZIP is
`"SW1A 1AA"` and keys the population call, that call fails, and the `zip` returned is
`"Unknown"`. -/
theorem census_zip_not_returned_when_population_call_fails :
    zipCodeOf (geocoded (.str "SW1A 1AA")) = .ok "SW1A 1AA"
    ∧ calls sampleRequest sampleEnv
        (hostsAnswer (.ok (geocoded (.str "SW1A 1AA"))) (.error "fetch failed"))
      = ["https://nominatim.openstreetmap.org/reverse?format=json&lat=32.75&lon=-97.5",
          "https://api.census.gov/data/2020/dec/pl?get=P1_001N,NAME&for=zip%20code%20tabulation%20area:SW1A 1AA&key=k"]
    ∧ popUrl "SW1A 1AA" sampleEnv.CENSUS_API_KEY
      = .ok "https://api.census.gov/data/2020/dec/pl?get=P1_001N,NAME&for=zip%20code%20tabulation%20area:SW1A 1AA&key=k"
    ∧ respond sampleRequest sampleEnv
        (hostsAnswer (.ok (geocoded (.str "SW1A 1AA"))) (.error "fetch failed"))
      = some (censusResponse "Unknown" (natNum 7383))
    ∧ "Unknown" ≠ "SW1A 1AA" :=
  ⟨rfl, rfl, rfl, rfl, by decide⟩

/-- C22, amended. For every geocoding payload whose `address.postcode` is a string `s`, the
ZIP of the census lookup is the text of `s` before its first hyphen, whatever its length or
characters, with `"Unknown"` in place of an empty text; the population upstream is called,
with a URL keyed by this ZIP, exactly when the ZIP is not `"Unknown"` and the credential is
configured and has a string conversion; and this ZIP is the `zip` returned unless the
population step throws (its URL cannot be built, the call fails, or `parseInt` throws on
the count), in which case the fallback with the zip `"Unknown"` is returned. -/
theorem census_zip_before_first_hyphen (request : Request) (env : Env) (net : Upstream)
    (body lat lon nominatimData address : Val) (url s : String)
    (hm : request.method = "POST") (hp : request.pathname = "/census-lookup")
    (hbody : request.json = .ok body)
    (hlat : body.get "lat" = .ok lat) (hlon : body.get "lon" = .ok lon)
    (hurl : nominatimUrl lat lon = .ok url)
    (hgeo : net url = .ok nominatimData)
    (ha : nominatimData.get "address" = .ok address)
    (hpc : address.get "postcode" = .ok (.str s)) :
    zipCodeOf nominatimData = .ok (zipOfPostcode s)
    ∧ calls request env net
        = url ::
          (if zipOfPostcode s ≠ "Unknown" ∧ env.CENSUS_API_KEY.truthy = true then
            match popUrl (zipOfPostcode s) env.CENSUS_API_KEY with
            | .ok url2 => [url2]
            | .error _ => []
          else [])
    ∧ respond request env net = some (
        if zipOfPostcode s ≠ "Unknown" ∧ env.CENSUS_API_KEY.truthy = true then
          match populationStep net (zipOfPostcode s) env.CENSUS_API_KEY with
          | .ok population => censusResponse (zipOfPostcode s) (Val.num population).toJSON
          | .error _ => censusResponse "Unknown" (natNum 7383)
        else censusResponse (zipOfPostcode s) (natNum 7383)) := by
  have hzip := zipCodeOf_postcode nominatimData address s ha hpc
  refine ⟨hzip, ?_, ?_⟩
  · rw [calls_census request env net hm hp, censusTry_apply]
    simp only [hbody, hlat, hlon, hurl, hgeo, hzip]
    by_cases hc : zipOfPostcode s ≠ "Unknown" ∧ env.CENSUS_API_KEY.truthy = true
    · rw [if_pos hc, if_pos hc]
      rcases popUrl (zipOfPostcode s) env.CENSUS_API_KEY with e | url2
      · rfl
      dsimp only
      rcases net url2 with e | popData
      · rfl
      dsimp only
      rcases populationOf popData with e | population <;> rfl
    · rw [if_neg hc, if_neg hc]
      rfl
  · exact respond_census_of_zip request env net body lat lon nominatimData url
      (zipOfPostcode s) hm hp hbody hlat hlon hurl hgeo hzip

/-- Witness for C22, amended: the postal code `"SW1A 1AA"` has no hyphen and is used as it
is; the population call returns a table. -/
theorem census_zip_before_first_hyphen_witness :
    zipCodeOf (geocoded (.str "SW1A 1AA")) = .ok (zipOfPostcode "SW1A 1AA")
    ∧ calls sampleRequest sampleEnv
          (hostsAnswer (.ok (geocoded (.str "SW1A 1AA"))) (.ok (popTable [.str "41500"])))
        = "https://nominatim.openstreetmap.org/reverse?format=json&lat=32.75&lon=-97.5" ::
          (if zipOfPostcode "SW1A 1AA" ≠ "Unknown" ∧ sampleEnv.CENSUS_API_KEY.truthy = true
            then
              match popUrl (zipOfPostcode "SW1A 1AA") sampleEnv.CENSUS_API_KEY with
              | .ok url2 => [url2]
              | .error _ => []
            else [])
    ∧ respond sampleRequest sampleEnv
          (hostsAnswer (.ok (geocoded (.str "SW1A 1AA"))) (.ok (popTable [.str "41500"])))
        = some (
          if zipOfPostcode "SW1A 1AA" ≠ "Unknown" ∧ sampleEnv.CENSUS_API_KEY.truthy = true
          then
            match populationStep
                (hostsAnswer (.ok (geocoded (.str "SW1A 1AA")))
                  (.ok (popTable [.str "41500"])))
                (zipOfPostcode "SW1A 1AA") sampleEnv.CENSUS_API_KEY with
            | .ok population =>
              censusResponse (zipOfPostcode "SW1A 1AA") (Val.num population).toJSON
            | .error _ => censusResponse "Unknown" (natNum 7383)
          else censusResponse (zipOfPostcode "SW1A 1AA") (natNum 7383)) :=
  census_zip_before_first_hyphen sampleRequest sampleEnv
    (hostsAnswer (.ok (geocoded (.str "SW1A 1AA"))) (.ok (popTable [.str "41500"])))
    (.obj [("lat", .num (.fin false 131 2)), ("lon", .num (.fin true 195 1))])
    (.num (.fin false 131 2)) (.num (.fin true 195 1))
    (geocoded (.str "SW1A 1AA"))
    (.obj [("city", .str "Fort Worth"), ("postcode", .str "SW1A 1AA")])
    "https://nominatim.openstreetmap.org/reverse?format=json&lat=32.75&lon=-97.5"
    "SW1A 1AA"
    rfl rfl rfl rfl rfl rfl rfl rfl rfl

/-- The three threshold comparisons of the colour functions, read on the value of the size. -/
theorem thresholds_atLeast (size : JsNum) :
    (size.ge lit2 = true ↔ sizeAtLeast size 2)
    ∧ (size.ge lit1_75 = true ↔ sizeAtLeast size (7 / 4))
    ∧ (size.ge lit1 = true ↔ sizeAtLeast size 1) := by
  have h2 := ge_iff_sizeAtLeast size 2 0
  have h175 := ge_iff_sizeAtLeast size 7 2
  have h1 := ge_iff_sizeAtLeast size 1 0
  have e2 : ((2 : ℕ) : ℚ) / 2 ^ 0 = 2 := by norm_num
  have e175 : ((7 : ℕ) : ℚ) / 2 ^ 2 = 7 / 4 := by norm_num
  have e1 : ((1 : ℕ) : ℚ) / 2 ^ 0 = 1 := by norm_num
  rw [e2] at h2
  rw [e175] at h175
  rw [e1] at h1
  exact ⟨h2, h175, h1⟩

/-- The three threshold comparisons when they fail, for a size other than `NaN`. -/
theorem thresholds_below (size : JsNum) (hsize : size ≠ .nan) :
    (size.ge lit2 = false ↔ sizeBelow size 2)
    ∧ (size.ge lit1_75 = false ↔ sizeBelow size (7 / 4))
    ∧ (size.ge lit1 = false ↔ sizeBelow size 1) := by
  have h2 := not_ge_iff_sizeBelow size hsize 2 0
  have h175 := not_ge_iff_sizeBelow size hsize 7 2
  have h1 := not_ge_iff_sizeBelow size hsize 1 0
  have e2 : ((2 : ℕ) : ℚ) / 2 ^ 0 = 2 := by norm_num
  have e175 : ((7 : ℕ) : ℚ) / 2 ^ 2 = 7 / 4 := by norm_num
  have e1 : ((1 : ℕ) : ℚ) / 2 ^ 0 = 1 := by norm_num
  rw [e2] at h2
  rw [e175] at h175
  rw [e1] at h1
  exact ⟨h2, h175, h1⟩

/-- A report of 175 hundredths of an inch has the size 1.75, an orange marker and an orange
dot. -/
theorem report_175_is_orange :
    actualSize (.fin false 175 0) = lit1_75
    ∧ createHailIconColor (actualSize (.fin false 175 0)) = "#f97316"
    ∧ getSizeColor (actualSize (.fin false 175 0)) = "bg-orange-500" := by
  have h : actualSize (.fin false 175 0) = lit1_75 := by decide
  rw [h]
  exact ⟨rfl, rfl, rfl⟩

/-- The value `NaN` is outside the four bands: both functions would paint it green although
it is not below one inch. No storm report has this size (`actualSize_ne_nan`). -/
theorem nan_is_green :
    createHailIconColor .nan = "#22c55e" ∧ getSizeColor .nan = "bg-green-500"
    ∧ ¬ sizeBelow .nan 1 :=
  ⟨rfl, rfl, fun h => h⟩

/-! ## The claim on the colour bands -/

/-- C23. For every hail size (a Number other than `NaN`), the fill chosen by
`createHailIcon` and the dot class chosen by `getSizeColor` belong to the same band, this
band and dot class are an entry of the legend, and the band is red iff size ≥ 2, orange iff
1.75 ≤ size < 2, yellow iff 1 ≤ size < 1.75, green iff size < 1. -/
theorem hail_colour_bands (size : JsNum) (hsize : size ≠ .nan) :
    hexBand (createHailIconColor size) = classBand (getSizeColor size)
    ∧ (∃ entry ∈ legend,
        some entry.1 = classBand (getSizeColor size) ∧ entry.2.1 = getSizeColor size)
    ∧ (classBand (getSizeColor size) = some .red ↔ sizeAtLeast size 2)
    ∧ (classBand (getSizeColor size) = some .orange
        ↔ sizeAtLeast size (7 / 4) ∧ sizeBelow size 2)
    ∧ (classBand (getSizeColor size) = some .yellow
        ↔ sizeAtLeast size 1 ∧ sizeBelow size (7 / 4))
    ∧ (classBand (getSizeColor size) = some .green ↔ sizeBelow size 1) := by
  obtain ⟨a2, a175, a1⟩ := thresholds_atLeast size
  obtain ⟨b2, b175, b1⟩ := thresholds_below size hsize
  have m1 : sizeBelow size 1 → sizeBelow size (7 / 4) :=
    sizeBelow_mono size 1 (7 / 4) (by norm_num)
  have m2 : sizeBelow size (7 / 4) → sizeBelow size 2 :=
    sizeBelow_mono size (7 / 4) 2 (by norm_num)
  have hred : classBand "bg-red-500" = some Band.red := rfl
  have horange : classBand "bg-orange-500" = some Band.orange := rfl
  have hyellow : classBand "bg-yellow-500" = some Band.yellow := rfl
  have hgreen : classBand "bg-green-500" = some Band.green := rfl
  have no2 : ∀ b : Bool, b = true → ¬ b = false := fun b h1 h2 => by
    rw [h1] at h2
    exact Bool.noConfusion h2
  unfold createHailIconColor getSizeColor
  by_cases h2 : size.ge lit2 = true
  · rw [if_pos h2, if_pos h2, hred]
    refine ⟨rfl, ⟨(.red, "bg-red-500", "Baseball+", "2+ inches"), by simp [legend], rfl, rfl⟩,
      iff_of_true rfl (a2.1 h2), iff_of_false (by decide) ?_, iff_of_false (by decide) ?_,
      iff_of_false (by decide) ?_⟩
    · exact fun h => no2 _ h2 (b2.2 h.2)
    · exact fun h => no2 _ h2 (b2.2 (m2 h.2))
    · exact fun h => no2 _ h2 (b2.2 (m2 (m1 h)))
  rw [if_neg h2, if_neg h2]
  have h2f : size.ge lit2 = false := by simpa using h2
  by_cases h175 : size.ge lit1_75 = true
  · rw [if_pos h175, if_pos h175, horange]
    refine ⟨rfl, ⟨(.orange, "bg-orange-500", "Golf Ball", "1.75-2\""), by simp [legend],
        rfl, rfl⟩,
      iff_of_false (by decide) (fun h => h2 (a2.2 h)),
      iff_of_true rfl ⟨a175.1 h175, b2.1 h2f⟩, iff_of_false (by decide) ?_,
      iff_of_false (by decide) ?_⟩
    · exact fun h => no2 _ h175 (b175.2 h.2)
    · exact fun h => no2 _ h175 (b175.2 (m1 h))
  rw [if_neg h175, if_neg h175]
  have h175f : size.ge lit1_75 = false := by simpa using h175
  by_cases h1 : size.ge lit1 = true
  · rw [if_pos h1, if_pos h1, hyellow]
    exact ⟨rfl, ⟨(.yellow, "bg-yellow-500", "Quarter", "1-1.75\""), by simp [legend],
        rfl, rfl⟩,
      iff_of_false (by decide) (fun h => h2 (a2.2 h)),
      iff_of_false (by decide) (fun h => h175 (a175.2 h.1)),
      iff_of_true rfl ⟨a1.1 h1, b175.1 h175f⟩,
      iff_of_false (by decide) (fun h => no2 _ h1 (b1.2 h))⟩
  rw [if_neg h1, if_neg h1]
  have h1f : size.ge lit1 = false := by simpa using h1
  rw [hgreen]
  exact ⟨rfl, ⟨(.green, "bg-green-500", "Pea/Penny", "<1 inch"), by simp [legend],
      rfl, rfl⟩,
    iff_of_false (by decide) (fun h => h2 (a2.2 h)),
    iff_of_false (by decide) (fun h => h175 (a175.2 h.1)),
    iff_of_false (by decide) (fun h => h1 (a1.2 h.1)),
    iff_of_true rfl (b1.1 h1f)⟩

/-- Witness for C23 at the size 1.75, where the yellow band ends and the orange one starts. -/
theorem hail_colour_bands_witness :
    hexBand (createHailIconColor lit1_75) = classBand (getSizeColor lit1_75)
    ∧ (∃ entry ∈ legend,
        some entry.1 = classBand (getSizeColor lit1_75) ∧ entry.2.1 = getSizeColor lit1_75)
    ∧ (classBand (getSizeColor lit1_75) = some .red ↔ sizeAtLeast lit1_75 2)
    ∧ (classBand (getSizeColor lit1_75) = some .orange
        ↔ sizeAtLeast lit1_75 (7 / 4) ∧ sizeBelow lit1_75 2)
    ∧ (classBand (getSizeColor lit1_75) = some .yellow
        ↔ sizeAtLeast lit1_75 1 ∧ sizeBelow lit1_75 (7 / 4))
    ∧ (classBand (getSizeColor lit1_75) = some .green ↔ sizeBelow lit1_75 1) :=
  hail_colour_bands lit1_75 (by decide)

end HailSpectrum
